import Mathlib

/-!
# Geant4 VMC: shallow embedding of `TG4StepManager.cxx` and of `TG4ParticlesChecker.cxx`

The step manager answers queries of user code about the track, step or Gflash spot that the
transport engine is processing.  The C++ object becomes a record of its data members, every
engine object it points to becomes a record of the values the source reads from it, and every
member function becomes a function on these records.

Conventions of the embedding:

* a pointer is an `Option`; `none` is the null pointer;
* a member function returns `Option`: `none` stands for a call that does not return normally,
  either because `TG4Globals::Exception` was raised or because a null pointer (or a vector
  element outside its range) was read;
* `G4int` / `Int_t` values are mathematical integers (no wrap-around is modelled; copy numbers,
  indices and counts stay far below `2^31`);
* `G4double` / `Double_t` values are rationals: arithmetic is exact, rounding is not modelled;
* the preprocessor symbol `MCDEBUG` is the Boolean `Services.MCDEBUG`;
* a function that writes through a pointer or calls a service returns the state afterwards
  together with the list of its effects (`Effect`) in the order of execution;
* user limits are objects shared through pointers: they live in a `LimitsStore` and are
  referred to by address;
* collaborators that are not part of `TG4StepManager.cxx` (SD services, physics manager,
  stepping action, unit constants, header defaults) are fields of `Services`.
-/

namespace G4VMC

/-- The type `G4int` / `Int_t` of the source. -/
abbrev G4int := Int

/-- The type `G4double` / `Double_t` of the source, in exact arithmetic. -/
abbrev G4double := ℚ

/-- Enumeration `TG4StepStatus`: the regime of the step manager. -/
inductive TG4StepStatus where
  | kNormalStep
  | kBoundary
  | kVertex
  | kGflashSpot
  deriving DecidableEq, Repr

/-- Enumeration `TMCProcess` of the VMC interface (process codes). -/
inductive TMCProcess where
  | kPPrimary
  | kPMultipleScattering
  | kPCoulombScattering
  | kPEnergyLoss
  | kPMagneticFieldL
  | kPDecay
  | kPPair
  | kPCompton
  | kPPhotoelectric
  | kPBrem
  | kPDeltaRay
  | kPAnnihilation
  | kPAnnihilationRest
  | kPAnnihilationFlight
  | kPHadronic
  | kPEvaporation
  | kPNuclearFission
  | kPNuclearAbsorption
  | kPPbarAnnihilation
  | kPNbarAnnihilation
  | kPNCapture
  | kPHElastic
  | kPHIElastic
  | kPHCElastic
  | kPHInhelastic
  | kPPhotonInhelastic
  | kPMuonNuclear
  | kPElectronNuclear
  | kPPositronNuclear
  | kPPhotoNuclear
  | kPTOFlimit
  | kPPhotoFission
  | kPRayleigh
  | kPNull
  | kPStop
  | kPLightAbsorption
  | kPLightDetection
  | kPLightScattering
  | kPLightWLShifting
  | kStepMax
  | kPCerenkov
  | kPFeedBackPhoton
  | kPLightReflection
  | kPLightRefraction
  | kPSynchrotron
  | kPScintillation
  | kPTransitionRadiation
  | kPTransportation
  | kPUserDefined
  | kPNoProcess
  deriving DecidableEq, Repr

/-- Three-vector `G4ThreeVector`. -/
structure G4ThreeVector where
  x : G4double := 0
  y : G4double := 0
  z : G4double := 0
  deriving DecidableEq

/-- Product `v *= a` of a three-vector by a scalar. -/
def G4ThreeVector.scale (v : G4ThreeVector) (a : G4double) : G4ThreeVector :=
  { x := v.x * a, y := v.y * a, z := v.z * a }

/-- Four-vector `TLorentzVector`, components `[0]`, `[1]`, `[2]`, `[3]`. -/
structure TLorentzVector where
  c0 : G4double := 0
  c1 : G4double := 0
  c2 : G4double := 0
  c3 : G4double := 0
  deriving DecidableEq

/-- Affine transform `G4AffineTransform` of Geant4: a 3x3 matrix and a translation. -/
structure G4AffineTransform where
  rxx : G4double := 1
  rxy : G4double := 0
  rxz : G4double := 0
  ryx : G4double := 0
  ryy : G4double := 1
  ryz : G4double := 0
  rzx : G4double := 0
  rzy : G4double := 0
  rzz : G4double := 1
  tx : G4double := 0
  ty : G4double := 0
  tz : G4double := 0
  deriving DecidableEq

/-- Geant4's `G4AffineTransform::TransformPoint(vec)`: matrix and translation. -/
def G4AffineTransform.TransformPoint (t : G4AffineTransform) (vec : G4ThreeVector) :
    G4ThreeVector :=
  { x := vec.x * t.rxx + vec.y * t.ryx + vec.z * t.rzx + t.tx,
    y := vec.x * t.rxy + vec.y * t.ryy + vec.z * t.rzy + t.ty,
    z := vec.x * t.rxz + vec.y * t.ryz + vec.z * t.rzz + t.tz }

/-- Geant4's `G4AffineTransform::TransformAxis(axis)`: the matrix alone, no translation. -/
def G4AffineTransform.TransformAxis (t : G4AffineTransform) (axis : G4ThreeVector) :
    G4ThreeVector :=
  { x := axis.x * t.rxx + axis.y * t.ryx + axis.z * t.rzx,
    y := axis.x * t.rxy + axis.y * t.ryy + axis.z * t.rzy,
    z := axis.x * t.rxz + axis.y * t.ryz + axis.z * t.rzz }

/-- Geant4's `G4AffineTransform::Inverse()`: the transposed matrix and the translation carried
back through it. -/
def G4AffineTransform.Inverse (t : G4AffineTransform) : G4AffineTransform :=
  { rxx := t.rxx, rxy := t.ryx, rxz := t.rzx,
    ryx := t.rxy, ryy := t.ryy, ryz := t.rzy,
    rzx := t.rxz, rzy := t.ryz, rzz := t.rzz,
    tx := -(t.tx * t.rxx + t.ty * t.rxy + t.tz * t.rxz),
    ty := -(t.tx * t.ryx + t.ty * t.ryy + t.tz * t.ryz),
    tz := -(t.tx * t.rzx + t.ty * t.rzy + t.tz * t.rzz) }

/-- Address of a user-limits object (`G4UserLimits*`, `TG4Limits*`). -/
abbrev LimitsAddress := Nat

/-- Logical volume `G4LogicalVolume`, identified by its name; `GetUserLimits()` is a pointer. -/
structure G4LogicalVolume where
  GetName : String := ""
  GetUserLimits : Option LimitsAddress := none
  deriving DecidableEq, Repr

/-- Physical volume `G4VPhysicalVolume`: the values the source reads from it. -/
structure G4VPhysicalVolume where
  GetName : String := ""
  GetCopyNo : G4int := 0
  IsParameterised : Bool := false
  IsReplicated : Bool := false
  GetLogicalVolume : G4LogicalVolume := {}
  deriving DecidableEq, Repr

/-- Navigation history `G4NavigationHistory`: the transform of its top level, and the volume
`GetVolume(n)` of level `n` counted from the root (level 0), a pointer. -/
structure G4NavigationHistory where
  GetTopTransform : G4AffineTransform := {}
  GetVolume : G4int → Option G4VPhysicalVolume := fun _ => none

/-- Touchable `G4VTouchable`: `GetHistoryDepth()` and `GetVolume(depth)`, the latter with the
null pointer as `none`. -/
structure G4VTouchable where
  GetHistoryDepth : G4int := 0
  GetVolume : G4int → Option G4VPhysicalVolume := fun _ => none
  GetHistory : G4NavigationHistory := {}

/-- Touchable of a navigation history given root first, as Geant4's `G4TouchableHistory` answers:
the history depth is the number of levels below the root, `GetVolume(depth)` is the volume
`depth` levels above the deepest one, and level `n` of the history is entry `n` of the list. -/
def G4TouchableHistory (levels : List G4VPhysicalVolume) : G4VTouchable where
  GetHistoryDepth := (levels.length : G4int) - 1
  GetVolume := fun depth =>
    if 0 ≤ depth ∧ depth < levels.length then levels.reverse.get? depth.toNat else none
  GetHistory :=
    { GetVolume := fun n => if 0 ≤ n ∧ n < levels.length then levels.get? n.toNat else none }

/-- Physics process `G4VProcess`. -/
structure G4VProcess where
  GetProcessName : String := ""
  GetProcessSubType : G4int := 0
  deriving DecidableEq, Repr

/-- Value of `TRANSPORTATION` in Geant4's `G4TransportationProcessType`. -/
def TRANSPORTATION : G4int := 91

/-- Process manager `G4ProcessManager`: the along-step process vector, whose entries are
pointers and may be null. -/
structure G4ProcessManager where
  GetAlongStepProcessVector : List (Option G4VProcess) := []
  deriving DecidableEq

/-- Particle definition `G4ParticleDefinition`. -/
structure G4ParticleDefinition where
  GetParticleName : String := ""
  GetPDGEncoding : G4int := 0
  GetProcessManager : G4ProcessManager := {}
  GetPDGMass : G4double := 0
  GetPDGCharge : G4double := 0
  GetPDGLifeTime : G4double := 0
  GetPDGWidth : G4double := 0
  GetPDGiParity : G4int := 0
  GetPDGSpin : G4double := 0
  GetPDGIsospin : G4double := 0
  GetPDGIsospin3 : G4double := 0
  deriving DecidableEq

/-- Dynamic particle `G4DynamicParticle`. -/
structure G4DynamicParticle where
  GetDefinition : G4ParticleDefinition := {}
  GetTotalEnergy : G4double := 0

/-- Enumeration `G4TrackStatus` of Geant4. -/
inductive G4TrackStatus where
  | fAlive
  | fStopButAlive
  | fStopAndKill
  | fKillTrackAndSecondaries
  | fSuspend
  | fPostponeToNextEvent
  deriving DecidableEq, Repr

/-- Modelled from the spec: class `TG4TrackInformation`, not among the sources: the per-track
annotation that carries the "interrupted" flag. -/
structure TG4TrackInformation where
  IsInterrupt : Bool := false
  deriving DecidableEq, Repr

/-- Track `G4Track`: the values the source reads from the current track and from secondary
tracks. -/
structure G4Track where
  GetTouchable : Option G4VTouchable := none
  GetNextTouchable : Option G4VTouchable := none
  GetVolume : Option G4VPhysicalVolume := none
  GetNextVolume : Option G4VPhysicalVolume := none
  GetDynamicParticle : G4DynamicParticle := {}
  GetPosition : G4ThreeVector := {}
  GetGlobalTime : G4double := 0
  GetMomentum : G4ThreeVector := {}
  GetCreatorProcess : Option G4VProcess := none
  GetTrackStatus : G4TrackStatus := G4TrackStatus.fAlive
  GetTrackLength : G4double := 0
  GetCurrentStepNumber : G4int := 0
  GetUserInformation : Option TG4TrackInformation := none

/-- Accessor `G4Track::GetTotalEnergy()`: the total energy of the dynamic particle. -/
def G4Track.GetTotalEnergy (t : G4Track) : G4double :=
  t.GetDynamicParticle.GetTotalEnergy

/-- Accessor `G4Track::GetDefinition()`: the definition of the dynamic particle. -/
def G4Track.GetDefinition (t : G4Track) : G4ParticleDefinition :=
  t.GetDynamicParticle.GetDefinition

/-- Vector of secondary tracks `G4TrackVector`. -/
abbrev G4TrackVector := List G4Track

/-- Enumeration `G4StepStatus` of Geant4: what limited the step at a step point. -/
inductive G4StepStatus where
  | fWorldBoundary
  | fGeomBoundary
  | fAtRestDoItProc
  | fAlongStepDoItProc
  | fPostStepDoItProc
  | fUserDefinedLimit
  | fExclusivelyForcedProc
  | fUndefined
  deriving DecidableEq, Repr

/-- Step point `G4StepPoint`. -/
structure G4StepPoint where
  GetProcessDefinedStep : Option G4VProcess := none
  GetStepStatus : G4StepStatus := G4StepStatus.fUndefined

/-- Step `G4Step`. -/
structure G4Step where
  GetTrack : G4Track := {}
  GetPostStepPoint : G4StepPoint := {}
  GetTotalEnergyDeposit : G4double := 0

/-- Energy spot `GFlashEnergySpot` of a fast-simulation spot. -/
structure GFlashEnergySpot where
  GetPosition : G4ThreeVector := {}
  GetEnergy : G4double := 0
  deriving DecidableEq

/-- Fast-simulation spot `G4GFlashSpot`; the touchable handle may be empty, the energy spot is
a pointer. -/
structure G4GFlashSpot where
  GetTouchableHandle : Option G4VTouchable := none
  GetEnergySpot : Option GFlashEnergySpot := none

/-- Stepping manager `G4SteppingManager`: the three secondary counters of the current step and
the vector of all secondaries of the track. -/
structure G4SteppingManager where
  GetfN2ndariesAtRestDoIt : G4int := 0
  GetfN2ndariesAlongStepDoIt : G4int := 0
  GetfN2ndariesPostStepDoIt : G4int := 0
  GetSecondary : Option G4TrackVector := none
  GetfCurrentProcess : Option G4VProcess := none

/-- Unit constants `TG4G3Units` used by the source. -/
structure TG4G3Units where
  Length : G4double := 1
  Time : G4double := 1
  Energy : G4double := 1

/-- Navigator `G4Navigator`: the answer of `GetLocalExitNormal(&valid)`, as the normal and the
flag written to `valid`, and the local-to-global transform. -/
structure G4Navigator where
  GetLocalExitNormal : G4ThreeVector × Bool := ({}, false)
  GetLocalToGlobalTransform : G4AffineTransform := {}

/-- Initial status `TMCParticleStatus` of a track taken over from the VMC stack. -/
structure TMCParticleStatus where
  fTrackLength : G4double := 0
  fStepNumber : G4int := 0
  deriving DecidableEq

/-- Modelled from the spec: class `TG4TrackManager`, not among the sources, reached through
`fTrackManager`; it gives access to the annotation of a track. -/
structure TG4TrackManager where
  deriving DecidableEq, Repr

/-- Modelled from the spec: `TG4TrackManager::GetTrackInformation(track)`, not among the
sources: the annotation attached to the track, a pointer. -/
def TG4TrackManager.GetTrackInformation (_manager : TG4TrackManager) (track : G4Track) :
    Option TG4TrackInformation :=
  track.GetUserInformation

/-- A message passed to `TG4Globals::Warning`. -/
structure Warning where
  className : String
  method : String
  text : String
  deriving DecidableEq, Repr

/-- Collaborators of the step manager that live outside `TG4StepManager.cxx`.

* `MCDEBUG`: whether the debug checks are compiled in;
* `warnDefault`: default value of the parameter `warn` of `GetCurrentOffPhysicalVolume`,
  declared in the class header;
* `GetVolumeID`: `TG4SDServices::GetVolumeID`, the sensitive-detector id of a logical volume;
* `GetMCProcess`, `IsOpBoundaryProcess`, `GetOpBoundaryStatus`: `TG4PhysicsManager`;
* `ProcessTrackIfGeneralProcess`: `TG4SteppingAction::ProcessTrackIfGeneralProcess(step)`, which
  fixes the creator processes of the secondaries; given as its effect on the secondaries vector;
* `OpticalPhotonDefinition`: `G4OpticalPhoton::Definition()`;
* `Units`: the `TG4G3Units` constants;
* `NavigatorForTracking`: the navigator for tracking of `G4TransportationManager`;
* `TrackManagerInstance`: `TG4TrackManager::Instance()`;
* `GetLimits`: `TG4GeometryServices::GetLimits`, the checked conversion of a `G4UserLimits*` to
  a `TG4Limits*` (`none` when it raises an exception);
* `UserVolumeName`: `TG4GeometryServices::UserVolumeName`, the user name of a volume name. -/
structure Services where
  MCDEBUG : Bool := false
  warnDefault : Bool := false
  GetVolumeID : G4LogicalVolume → G4int := fun _ => 0
  GetMCProcess : Option G4VProcess → TMCProcess := fun _ => TMCProcess.kPNoProcess
  IsOpBoundaryProcess : Bool := false
  GetOpBoundaryStatus : TMCProcess := TMCProcess.kPNoProcess
  ProcessTrackIfGeneralProcess : G4Step → G4TrackVector → G4TrackVector := fun _ v => v
  OpticalPhotonDefinition : G4ParticleDefinition := { GetParticleName := "opticalphoton" }
  Units : TG4G3Units := {}
  NavigatorForTracking : G4Navigator := {}
  TrackManagerInstance : Option TG4TrackManager := some {}
  GetLimits : Option LimitsAddress → Option (Option LimitsAddress) := fun limits => some limits
  UserVolumeName : String → String := fun name => name

/-- An action of the step manager on an object outside itself: a write through a pointer, a
call of a service, or a report.

* `SetTrackStatus`: `fTrack->SetTrackStatus(status)`;
* `SetInterrupt`: `SetInterrupt(value)` on the track's `TG4TrackInformation`;
* `SetIsStopRun`: `TG4SDServices::Instance()->SetIsStopRun(value)`;
* `ApplyCommand`: `G4UImanager::GetUIpointer()->ApplyCommand(command)`;
* `ReportWarning`: `TG4Globals::Warning(...)`. -/
inductive Effect where
  | SetTrackStatus (status : G4TrackStatus)
  | SetInterrupt (value : Bool)
  | SetIsStopRun (value : Bool)
  | ApplyCommand (command : String)
  | ReportWarning (warning : Warning)
  deriving DecidableEq, Repr

/-- Modelled from the spec: class `TG4Limits`, whose header and implementation are not among the
sources.  The specification says that the step-size limit is overridden temporarily and that the
previous limit is restored on a later matching call: the limits hold the step limit in force and
the limit to go back to. -/
structure TG4Limits where
  maxAllowedStep : G4double := 0
  previousMaxAllowedStep : G4double := 0
  deriving DecidableEq

/-- Modelled from the spec: `TG4Limits::SetCurrentMaxAllowedStep(step)`, not among the sources:
overrides the limit in force by `step` and keeps the limit that was in force. -/
def TG4Limits.SetCurrentMaxAllowedStep (limits : TG4Limits) (step : G4double) : TG4Limits :=
  { maxAllowedStep := step, previousMaxAllowedStep := limits.maxAllowedStep }

/-- Modelled from the spec: `TG4Limits::SetMaxAllowedStepBack()`, not among the sources:
restores the limit that was in force before the override. -/
def TG4Limits.SetMaxAllowedStepBack (limits : TG4Limits) : TG4Limits :=
  { limits with maxAllowedStep := limits.previousMaxAllowedStep }

/-- The user-limits objects of the geometry, by address. -/
abbrev LimitsStore := LimitsAddress → TG4Limits

/-- Array `Double_t[3]` passed to `Gmtod` and `Gdtom`. -/
structure Double3 where
  e0 : G4double := 0
  e1 : G4double := 0
  e2 : G4double := 0
  deriving DecidableEq

/-- Address of a step manager object (`TG4StepManager*`). -/
abbrev InstanceAddress := Nat

/-- The thread-local static member `fgInstance` of `TG4StepManager`: the registered instance. -/
structure TG4StepManagerStatics where
  fgInstance : Option InstanceAddress := none
  deriving DecidableEq, Repr

/-- Data members of `TG4StepManager` read by the functions below. -/
structure TG4StepManager where
  fTrack : Option G4Track := none
  fStep : Option G4Step := none
  fGflashSpot : Option G4GFlashSpot := none
  fStepStatus : TG4StepStatus := TG4StepStatus.kNormalStep
  fLimitsModifiedOnFly : Option LimitsAddress := none
  fSteppingManager : Option G4SteppingManager := none
  fNameBuffer : String := ""
  fCopyNoOffset : G4int := 0
  fDivisionCopyNoOffset : G4int := 0
  fTrackManager : Option TG4TrackManager := none
  fInitialVMCTrackStatus : Option TMCParticleStatus := none

namespace TG4StepManager

/-- Constructor `TG4StepManager::TG4StepManager(userGeometry)` when no instance exists yet: the
member initialisers, then the two offsets chosen from the geometry origin. -/
def create (userGeometry : String) : TG4StepManager :=
  let sm : TG4StepManager :=
    { fTrack := none, fStep := none, fGflashSpot := none,
      fStepStatus := TG4StepStatus.kNormalStep, fLimitsModifiedOnFly := none,
      fSteppingManager := none, fNameBuffer := "", fCopyNoOffset := 0,
      fDivisionCopyNoOffset := 0, fTrackManager := none, fInitialVMCTrackStatus := none }
  let sm := if userGeometry = "VMCtoGeant4" then { sm with fCopyNoOffset := 1 } else sm
  if userGeometry = "RootToGeant4" ∨ userGeometry = "Geant4" then
    { sm with fDivisionCopyNoOffset := 1 }
  else sm

/-- Check `CheckTrack()`: exception when the track is not defined. -/
def CheckTrack (sm : TG4StepManager) : Option Unit :=
  if sm.fTrack.isNone then none else some ()

/-- Check `CheckStep(method)`: exception when the step is not defined. -/
def CheckStep (sm : TG4StepManager) : Option Unit :=
  if sm.fStep.isNone then none else some ()

/-- Check `CheckGflashSpot(method)`: exception when the Gflash spot is not defined. -/
def CheckGflashSpot (sm : TG4StepManager) : Option Unit :=
  if sm.fGflashSpot.isNone then none else some ()

/-- Check `CheckSteppingManager()`: exception when the stepping manager is not defined. -/
def CheckSteppingManager (sm : TG4StepManager) : Option Unit :=
  if sm.fSteppingManager.isNone then none else some ()

/-- The debug-only checks: run `check` when `MCDEBUG` is defined, nothing otherwise. -/
def ifMCDEBUG (env : Services) (check : Option Unit) : Option Unit :=
  if env.MCDEBUG then check else some ()

/-- Function `SetTLorentzVector(xyz, t, lv)`. -/
def SetTLorentzVector (xyz : G4ThreeVector) (t : G4double) : TLorentzVector :=
  { c0 := xyz.x, c1 := xyz.y, c2 := xyz.z, c3 := t }

/-- Function `GetCurrentTouchable()`; the result is the returned pointer. -/
def GetCurrentTouchable (env : Services) (sm : TG4StepManager) : Option (Option G4VTouchable) :=
  match ifMCDEBUG env (CheckTrack sm) with
  | none => none
  | some _ =>
    if sm.fStepStatus = TG4StepStatus.kGflashSpot then
      match sm.fGflashSpot with
      | none => none
      | some spot => some spot.GetTouchableHandle
    else if sm.fStepStatus ≠ TG4StepStatus.kBoundary then
      match sm.fTrack with
      | none => none
      | some track => some track.GetTouchable
    else
      match sm.fTrack with
      | none => none
      | some track => some track.GetNextTouchable

/-- Function `GetCurrentOffPhysicalVolume(off, warn)`: the returned pointer and the warnings
reported on the way. -/
def GetCurrentOffPhysicalVolume (env : Services) (sm : TG4StepManager) (off : G4int)
    (warn : Bool) : Option (Option G4VPhysicalVolume × List Warning) :=
  match GetCurrentTouchable env sm with
  | none => none
  | some none => none
  | some (some touchable) =>
    if touchable.GetHistoryDepth < off then
      if warn then
        match touchable.GetVolume 0 with
        | none => none
        | some volume =>
          some (none, [{ className := "TG4StepManager", method := "GetCurrentOffPhysicalVolume",
                         text := "Volume " ++ volume.GetName ++ " has not defined mother in " ++
                           ("level=" ++ toString off) ++ "." }])
      else some (none, [])
    else some (touchable.GetVolume off, [])

/-- Function `GetCurrentPhysicalVolume()`; the result is the returned pointer. -/
def GetCurrentPhysicalVolume (env : Services) (sm : TG4StepManager) :
    Option (Option G4VPhysicalVolume) :=
  match ifMCDEBUG env (CheckTrack sm) with
  | none => none
  | some _ =>
    if sm.fStepStatus = TG4StepStatus.kGflashSpot then
      match sm.fGflashSpot with
      | none => none
      | some spot =>
        match spot.GetTouchableHandle with
        | none => none
        | some touchable => some (touchable.GetVolume 0)
    else if sm.fStepStatus ≠ TG4StepStatus.kBoundary then
      match sm.fTrack with
      | none => none
      | some track => some track.GetVolume
    else
      match sm.fTrack with
      | none => none
      | some track => some track.GetNextVolume

/-- Function `CurrentVolID(copyNo)`: the returned sensitive-detector id and the value written to
`copyNo`. -/
def CurrentVolID (env : Services) (sm : TG4StepManager) : Option (G4int × G4int) :=
  match GetCurrentPhysicalVolume env sm with
  | none => none
  | some none => none
  | some (some physVolume) =>
    let copyNo := physVolume.GetCopyNo + sm.fCopyNoOffset
    let copyNo :=
      if physVolume.IsParameterised || physVolume.IsReplicated then
        copyNo + sm.fDivisionCopyNoOffset
      else copyNo
    some (env.GetVolumeID physVolume.GetLogicalVolume, copyNo)

/-- Function `CurrentVolOffID(off, copyNo)`: the returned id, the value written to `copyNo`, and
the warnings reported. -/
def CurrentVolOffID (env : Services) (sm : TG4StepManager) (off : G4int) :
    Option ((G4int × G4int) × List Warning) :=
  if off = 0 then
    match CurrentVolID env sm with
    | none => none
    | some r => some (r, [])
  else
    match GetCurrentOffPhysicalVolume env sm off (if env.MCDEBUG then true else env.warnDefault) with
    | none => none
    | some (some mother, warnings) =>
      let copyNo := mother.GetCopyNo + sm.fCopyNoOffset
      let copyNo :=
        if mother.IsParameterised || mother.IsReplicated then
          copyNo + sm.fDivisionCopyNoOffset
        else copyNo
      some ((env.GetVolumeID mother.GetLogicalVolume, copyNo), warnings)
    | some (none, warnings) => some ((0, 0), warnings)

/-- Function `NSecondaries()`. -/
def NSecondaries (env : Services) (sm : TG4StepManager) : Option G4int :=
  if sm.fStepStatus = TG4StepStatus.kVertex ∨ sm.fStepStatus = TG4StepStatus.kGflashSpot then
    some 0
  else
    match ifMCDEBUG env (CheckSteppingManager sm) with
    | none => none
    | some _ =>
      match sm.fSteppingManager with
      | none => none
      | some steppingManager =>
        let nofSecondaries : G4int := 0
        let nofSecondaries := nofSecondaries + steppingManager.GetfN2ndariesAtRestDoIt
        let nofSecondaries := nofSecondaries + steppingManager.GetfN2ndariesAlongStepDoIt
        let nofSecondaries := nofSecondaries + steppingManager.GetfN2ndariesPostStepDoIt
        some nofSecondaries

/-- Element access `(*secondaryTracks)[i]` of a track vector; `none` outside the vector. -/
def trackAt (secondaryTracks : G4TrackVector) (i : G4int) : Option G4Track :=
  if 0 ≤ i ∧ i < secondaryTracks.length then secondaryTracks.get? i.toNat else none

/-- Output parameters of `GetSecondary`. -/
structure SecondaryData where
  particleId : G4int := 0
  position : TLorentzVector := {}
  momentum : TLorentzVector := {}
  deriving DecidableEq

/-- Function `GetSecondary(index, particleId, position, momentum)`: the values of the three output
parameters after the call, `out` being their values before it. -/
def GetSecondary (env : Services) (sm : TG4StepManager) (index : G4int) (out : SecondaryData) :
    Option SecondaryData :=
  match ifMCDEBUG env (CheckSteppingManager sm) with
  | none => none
  | some _ =>
    match NSecondaries env sm with
    | none => none
    | some nofSecondaries =>
      if nofSecondaries = 0 then some out
      else
        match sm.fSteppingManager with
        | none => none
        | some steppingManager =>
          match steppingManager.GetSecondary with
          | none => none
          | some secondaryTracks =>
            if env.MCDEBUG && decide (index ≥ nofSecondaries) then none
            else
              let startIndex : G4int := (secondaryTracks.length : G4int) - nofSecondaries
              match trackAt secondaryTracks (startIndex + index) with
              | none => none
              | some track =>
                let particleId := track.GetDynamicParticle.GetDefinition.GetPDGEncoding
                let positionVector := track.GetPosition.scale (1 / env.Units.Length)
                let time := track.GetGlobalTime / env.Units.Time
                let position := SetTLorentzVector positionVector time
                let momentumVector := track.GetMomentum.scale (1 / env.Units.Energy)
                let energy := track.GetDynamicParticle.GetTotalEnergy / env.Units.Energy
                let momentum := SetTLorentzVector momentumVector energy
                some { particleId := particleId, position := position, momentum := momentum }

/-- Function `ProdProcess(isec)`. -/
def ProdProcess (env : Services) (sm : TG4StepManager) (isec : G4int) : Option TMCProcess :=
  match NSecondaries env sm with
  | none => none
  | some nofSecondaries =>
    if sm.fStepStatus = TG4StepStatus.kVertex ∨ nofSecondaries = 0 then
      some TMCProcess.kPNoProcess
    else
      match sm.fStep with
      | none => none
      | some step =>
        match sm.fSteppingManager with
        | none => none
        | some steppingManager =>
          match steppingManager.GetSecondary with
          | none => none
          | some secondaries =>
            let secondaryTracks := env.ProcessTrackIfGeneralProcess step secondaries
            if env.MCDEBUG && decide (isec ≥ nofSecondaries) then none
            else
              let startIndex : G4int := (secondaryTracks.length : G4int) - nofSecondaries
              match trackAt secondaryTracks (startIndex + isec) with
              | none => none
              | some track =>
                let kpProcess := track.GetCreatorProcess
                let mcProcess := env.GetMCProcess kpProcess
                let mcProcess :=
                  if mcProcess = TMCProcess.kPEnergyLoss then TMCProcess.kPDeltaRay else mcProcess
                some mcProcess

/-- Result of `StepProcesses(processes)`: `size` is the argument of `processes.Set`, `processes`
lists the values assigned to `processes[0]`, `processes[1]`, ... in this order, and `count` is
the returned number of processes. -/
structure StepProcessesResult where
  size : G4int
  processes : List TMCProcess
  count : G4int
  deriving DecidableEq, Repr

/-- The loop of `StepProcesses` over the along-step process vector: the codes assigned through
`processes[counter++]`, one for every entry that is not null and not a transportation. -/
def alongStepCodes (env : Services) : List (Option G4VProcess) → List TMCProcess
  | [] => []
  | g4Process :: rest =>
    match g4Process with
    | some process =>
      if process.GetProcessSubType ≠ TRANSPORTATION then
        env.GetMCProcess (some process) :: alongStepCodes env rest
      else alongStepCodes env rest
    | none => alongStepCodes env rest

/-- Function `StepProcesses(processes)`. -/
def StepProcesses (env : Services) (sm : TG4StepManager) : Option StepProcessesResult :=
  if sm.fStepStatus = TG4StepStatus.kVertex ∨ sm.fStepStatus = TG4StepStatus.kBoundary ∨
      sm.fStepStatus = TG4StepStatus.kGflashSpot then
    some { size := 1, processes := [TMCProcess.kPNull], count := 1 }
  else
    match ifMCDEBUG env (CheckSteppingManager sm) with
    | none => none
    | some _ =>
      match sm.fStep with
      | none => none
      | some step =>
        let processVector := step.GetTrack.GetDefinition.GetProcessManager.GetAlongStepProcessVector
        let nofAlongStep : G4int := processVector.length
        let kpLastProcess := step.GetPostStepPoint.GetProcessDefinedStep
        let written := alongStepCodes env processVector
        let last := [env.GetMCProcess kpLastProcess]
        if step.GetTrack.GetDefinition = env.OpticalPhotonDefinition then
          match kpLastProcess with
          | none => none
          | some lastProcess =>
            if lastProcess.GetProcessSubType = TRANSPORTATION ∧ env.IsOpBoundaryProcess = true then
              let written := written ++ [TMCProcess.kPLightScattering, env.GetOpBoundaryStatus]
              let written := written ++ last
              some { size := nofAlongStep + 2, processes := written, count := written.length }
            else
              let written := written ++ last
              some { size := nofAlongStep + 2, processes := written, count := written.length }
        else
          let written := written ++ last
          some { size := nofAlongStep + 2, processes := written, count := written.length }

/-- Function `LateInitialize()`. -/
def LateInitialize (env : Services) (sm : TG4StepManager) : TG4StepManager :=
  { sm with fTrackManager := env.TrackManagerInstance }

/-- Function `StopTrack()`: the state afterwards, the status being written to the track that
`fTrack` points to, and the effects in order. -/
def StopTrack (sm : TG4StepManager) : TG4StepManager × List Effect :=
  match sm.fTrack with
  | some track =>
    ({ sm with fTrack := some { track with GetTrackStatus := G4TrackStatus.fStopAndKill } },
      [Effect.SetTrackStatus G4TrackStatus.fStopAndKill])
  | none =>
    (sm, [Effect.ReportWarning
      { className := "TG4StepManager", method := "StopTrack()",
        text := "There is no current track to be stopped." }])

/-- Function `InterruptTrack()`: the state afterwards and the effects in order. -/
def InterruptTrack (sm : TG4StepManager) : Option (TG4StepManager × List Effect) :=
  match sm.fTrack with
  | some track =>
    let track := { track with GetTrackStatus := G4TrackStatus.fStopAndKill }
    match sm.fTrackManager with
    | none => none
    | some trackManager =>
      match trackManager.GetTrackInformation track with
      | none => none
      | some trackInformation =>
        some ({ sm with
                fTrack := some { track with
                  GetUserInformation := some { trackInformation with IsInterrupt := true } } },
          [Effect.SetTrackStatus G4TrackStatus.fStopAndKill, Effect.SetInterrupt true])
  | none =>
    some (sm, [Effect.ReportWarning
      { className := "TG4StepManager", method := "InterruptTrack()",
        text := "There is no current track to be interrupted." }])

/-- Function `StopEvent()`: the state afterwards and the effects in order. -/
def StopEvent (sm : TG4StepManager) : TG4StepManager × List Effect :=
  let killed : TG4StepManager × List Effect :=
    match sm.fTrack with
    | some track =>
      ({ sm with
         fTrack := some { track with GetTrackStatus := G4TrackStatus.fKillTrackAndSecondaries } },
        [Effect.SetTrackStatus G4TrackStatus.fKillTrackAndSecondaries])
    | none => (sm, [])
  (killed.1, killed.2 ++ [Effect.ApplyCommand "/event/abort"])

/-- Function `StopRun()`: the state afterwards and the effects in order. -/
def StopRun (sm : TG4StepManager) : TG4StepManager × List Effect :=
  let flagged := [Effect.SetIsStopRun true]
  let stopped := StopEvent sm
  (stopped.1, flagged ++ stopped.2 ++ [Effect.ApplyCommand "/run/abort"])

/-- Function `GetCurrentLimits()`: the returned pointer and the warnings reported. -/
def GetCurrentLimits (env : Services) (sm : TG4StepManager) :
    Option (Option LimitsAddress × List Warning) :=
  match GetCurrentPhysicalVolume env sm with
  | none => none
  | some none => none
  | some (some physVolume) =>
    let converted :=
      if env.MCDEBUG then env.GetLimits physVolume.GetLogicalVolume.GetUserLimits
      else some physVolume.GetLogicalVolume.GetUserLimits
    match converted with
    | none => none
    | some none =>
      some (none, [{ className := "TG4StepManager", method := "Get current limits",
                     text := "User limits not defined." }])
    | some (some userLimits) => some (some userLimits, [])

/-- Function `SetMaxStep(step)`: the state and the limits afterwards, and the warnings
reported. -/
def SetMaxStep (env : Services) (sm : TG4StepManager) (store : LimitsStore) (step : G4double) :
    Option (TG4StepManager × LimitsStore × List Warning) :=
  match GetCurrentLimits env sm with
  | none => none
  | some (none, warnings) => some (sm, store, warnings)
  | some (some userLimits, warnings) =>
    some ({ sm with fLimitsModifiedOnFly := some userLimits },
      Function.update store userLimits
        ((store userLimits).SetCurrentMaxAllowedStep (step * env.Units.Length)),
      warnings)

/-- Function `SetMaxStepBack()`: the state and the limits afterwards, and the warnings
reported. -/
def SetMaxStepBack (sm : TG4StepManager) (store : LimitsStore) :
    TG4StepManager × LimitsStore × List Warning :=
  match sm.fLimitsModifiedOnFly with
  | none =>
    (sm, store, [{ className := "TG4StepManager", method := "SetMaxStepBack",
                   text := "No limits modified on fly found." }])
  | some limits =>
    ({ sm with fLimitsModifiedOnFly := none },
      Function.update store limits (store limits).SetMaxAllowedStepBack, [])

/-- Function `SetInitialVMCTrackStatus(status)`. -/
def SetInitialVMCTrackStatus (sm : TG4StepManager) (status : Option TMCParticleStatus) :
    TG4StepManager :=
  { sm with fInitialVMCTrackStatus := status }

/-- Function `CurrentBoundaryNormal(x, y, z)`: the returned flag and the values of `x`, `y`, `z`
after the call, the arguments being their values before it. -/
def CurrentBoundaryNormal (env : Services) (x y z : G4double) :
    Bool × G4double × G4double × G4double :=
  let theNavigator := env.NavigatorForTracking
  let valid := theNavigator.GetLocalExitNormal.2
  let theLocalNormal := theNavigator.GetLocalExitNormal.1
  if !valid then (false, x, y, z)
  else
    let theGlobalNormal := theNavigator.GetLocalToGlobalTransform.TransformAxis theLocalNormal
    (true, theGlobalNormal.x, theGlobalNormal.y, theGlobalNormal.z)

/-- The warning of `Gmtod` and `Gdtom` on a flag other than 1 and 2. -/
def iflagWarning (iflag : G4int) : Warning :=
  { className := "TG4StepManager", method := "Gmtod",
    text := ("iflag=" ++ toString iflag) ++ " is different from 1..2." }

/-- Function `Gmtod(Double_t* xm, Double_t* xd, iflag)`: the array `xd` after the call, `xd`
being its content before it, and the warnings reported. -/
def Gmtod (env : Services) (sm : TG4StepManager) (xm xd : Double3) (iflag : G4int) :
    Option (Double3 × List Warning) :=
  if env.MCDEBUG = true ∧ iflag ≠ 1 ∧ iflag ≠ 2 then some (xd, [iflagWarning iflag])
  else
    match GetCurrentTouchable env sm with
    | none => none
    | some none => none
    | some (some touchable) =>
      let affineTransform := touchable.GetHistory.GetTopTransform
      let theGlobalPoint : G4ThreeVector :=
        { x := xm.e0 * env.Units.Length, y := xm.e1 * env.Units.Length,
          z := xm.e2 * env.Units.Length }
      let theLocalPoint :=
        if iflag = 1 then affineTransform.TransformPoint theGlobalPoint
        else affineTransform.TransformAxis theGlobalPoint
      some ({ e0 := theLocalPoint.x / env.Units.Length,
              e1 := theLocalPoint.y / env.Units.Length,
              e2 := theLocalPoint.z / env.Units.Length }, [])

/-- Function `Gdtom(Double_t* xd, Double_t* xm, iflag)`: the array `xm` after the call, `xm`
being its content before it, and the warnings reported. -/
def Gdtom (env : Services) (sm : TG4StepManager) (xd xm : Double3) (iflag : G4int) :
    Option (Double3 × List Warning) :=
  if env.MCDEBUG = true ∧ iflag ≠ 1 ∧ iflag ≠ 2 then some (xm, [iflagWarning iflag])
  else
    match GetCurrentTouchable env sm with
    | none => none
    | some none => none
    | some (some touchable) =>
      let affineTransform := touchable.GetHistory.GetTopTransform.Inverse
      let theLocalPoint : G4ThreeVector :=
        { x := xd.e0 * env.Units.Length, y := xd.e1 * env.Units.Length,
          z := xd.e2 * env.Units.Length }
      let theGlobalPoint :=
        if iflag = 1 then affineTransform.TransformPoint theLocalPoint
        else affineTransform.TransformAxis theLocalPoint
      some ({ e0 := theGlobalPoint.x / env.Units.Length,
              e1 := theGlobalPoint.y / env.Units.Length,
              e2 := theGlobalPoint.z / env.Units.Length }, [])

/-- Function `TrackPosition(TLorentzVector& position)`: the value written to `position`. -/
def TrackPosition (env : Services) (sm : TG4StepManager) : Option TLorentzVector :=
  match ifMCDEBUG env (CheckTrack sm) with
  | none => none
  | some _ =>
    let positionVector : Option G4ThreeVector :=
      if sm.fStepStatus = TG4StepStatus.kGflashSpot then
        match sm.fGflashSpot with
        | none => none
        | some spot =>
          match spot.GetEnergySpot with
          | none => none
          | some energySpot => some energySpot.GetPosition
      else
        match sm.fTrack with
        | none => none
        | some track => some track.GetPosition
    match positionVector with
    | none => none
    | some positionVector =>
      let positionVector := positionVector.scale (1 / env.Units.Length)
      match sm.fTrack with
      | none => none
      | some track =>
        let time := track.GetGlobalTime / env.Units.Time
        some (SetTLorentzVector positionVector time)

/-- Function `TrackPosition(Double_t& x, Double_t& y, Double_t& z)`: the values written to `x`,
`y` and `z`. -/
def TrackPositionXYZ (env : Services) (sm : TG4StepManager) :
    Option (G4double × G4double × G4double) :=
  match ifMCDEBUG env (CheckTrack sm) with
  | none => none
  | some _ =>
    let positionVector : Option G4ThreeVector :=
      if sm.fStepStatus = TG4StepStatus.kGflashSpot then
        match sm.fGflashSpot with
        | none => none
        | some spot =>
          match spot.GetEnergySpot with
          | none => none
          | some energySpot => some energySpot.GetPosition
      else
        match sm.fTrack with
        | none => none
        | some track => some track.GetPosition
    match positionVector with
    | none => none
    | some positionVector =>
      let positionVector := positionVector.scale (1 / env.Units.Length)
      some (positionVector.x, positionVector.y, positionVector.z)

/-- Function `TrackLength()`. -/
def TrackLength (env : Services) (sm : TG4StepManager) : Option G4double :=
  match ifMCDEBUG env (CheckTrack sm) with
  | none => none
  | some _ =>
    match sm.fInitialVMCTrackStatus with
    | none =>
      match sm.fTrack with
      | none => none
      | some track => some (track.GetTrackLength / env.Units.Length)
    | some initialStatus =>
      match sm.fTrack with
      | none => none
      | some track =>
        some (track.GetTrackLength / env.Units.Length + initialStatus.fTrackLength)

/-- Function `StepNumber()`. -/
def StepNumber (sm : TG4StepManager) : Option G4int :=
  match sm.fInitialVMCTrackStatus with
  | none =>
    match sm.fTrack with
    | none => none
    | some track => some track.GetCurrentStepNumber
  | some initialStatus =>
    match sm.fTrack with
    | none => none
    | some track => some (track.GetCurrentStepNumber + initialStatus.fStepNumber)

/-- Constructor `TG4StepManager::TG4StepManager(userGeometry)` run for the object at address
`self`: the constructed object, or `none` when the exception for a second instance is raised,
and the thread-local statics at that point. -/
def construct (statics : TG4StepManagerStatics) (self : InstanceAddress) (userGeometry : String) :
    Option TG4StepManager × TG4StepManagerStatics :=
  if statics.fgInstance.isSome then (none, statics)
  else (some (create userGeometry), { statics with fgInstance := some self })

/-- Destructor `TG4StepManager::~TG4StepManager()`: the thread-local statics afterwards. -/
def destruct (statics : TG4StepManagerStatics) : TG4StepManagerStatics :=
  { statics with fgInstance := none }

/-- Modelled from the spec: `TG4Globals::AppendNumberToString(s, a)`, not among the sources:
appends the decimal writing of the number, as in a `name_copyNumber` segment. -/
def AppendNumberToString (s : String) (a : G4int) : String :=
  s ++ toString a

/-- The loop of `CurrentVolPath` over the history levels `i = 0, ..., depth - 1`, given as the
list of the levels still to visit and the buffer so far. -/
def CurrentVolPathLevels (env : Services) (history : G4NavigationHistory) :
    List Nat → String → Option String
  | [], fNameBuffer => some fNameBuffer
  | i :: rest, fNameBuffer =>
    match history.GetVolume (i : G4int) with
    | none => none
    | some physVolume =>
      let fNameBuffer := fNameBuffer ++ "/"
      let fNameBuffer := fNameBuffer ++ env.UserVolumeName physVolume.GetName
      let fNameBuffer := fNameBuffer ++ "_"
      let fNameBuffer := AppendNumberToString fNameBuffer physVolume.GetCopyNo
      CurrentVolPathLevels env history rest fNameBuffer

/-- Function `CurrentVolPath()`: the state afterwards (the name buffer holds the path) and the
returned string. -/
def CurrentVolPath (env : Services) (sm : TG4StepManager) : Option (TG4StepManager × String) :=
  match GetCurrentTouchable env sm with
  | none => none
  | some none => none
  | some (some touchable) =>
    let depth := touchable.GetHistoryDepth
    match CurrentVolPathLevels env touchable.GetHistory (List.range depth.toNat) "" with
    | none => none
    | some fNameBuffer =>
      match GetCurrentPhysicalVolume env sm with
      | none => none
      | some none => none
      | some (some curPhysVolume) =>
        let fNameBuffer := fNameBuffer ++ "/"
        let fNameBuffer := fNameBuffer ++ env.UserVolumeName curPhysVolume.GetName
        let fNameBuffer := fNameBuffer ++ "_"
        let fNameBuffer := AppendNumberToString fNameBuffer curPhysVolume.GetCopyNo
        some ({ sm with fNameBuffer := fNameBuffer }, fNameBuffer)

/-- Function `Edep()`; `rest` is the code that follows the block for `kBoundary`, reached when
that block does not return. -/
def Edep (env : Services) (sm : TG4StepManager) : Option G4double :=
  if sm.fStepStatus = TG4StepStatus.kNormalStep then
    match ifMCDEBUG env (CheckStep sm) with
    | none => none
    | some _ =>
      match sm.fStep with
      | none => none
      | some step => some (step.GetTotalEnergyDeposit / env.Units.Energy)
  else
    let rest : Option G4double :=
      if sm.fStepStatus = TG4StepStatus.kGflashSpot then
        match ifMCDEBUG env (CheckGflashSpot sm) with
        | none => none
        | some _ =>
          match sm.fGflashSpot with
          | none => none
          | some spot =>
            match spot.GetEnergySpot with
            | none => none
            | some energySpot => some (energySpot.GetEnergy / env.Units.Energy)
      else some 0
    if sm.fStepStatus = TG4StepStatus.kBoundary then
      match sm.fTrack with
      | none => none
      | some track =>
        if track.GetTrackStatus = G4TrackStatus.fStopAndKill then
          match sm.fSteppingManager with
          | none => none
          | some steppingManager =>
            match steppingManager.GetfCurrentProcess with
            | some proc =>
              if env.GetMCProcess (some proc) = TMCProcess.kPLightScattering ∧
                  env.GetOpBoundaryStatus = TMCProcess.kPLightDetection then
                some (track.GetTotalEnergy / env.Units.Energy)
              else rest
            | none => rest
        else rest
    else rest

/-- Function `IsTrackExiting()`. -/
def IsTrackExiting (env : Services) (sm : TG4StepManager) : Option Bool :=
  if sm.fStepStatus = TG4StepStatus.kNormalStep then
    match ifMCDEBUG env (CheckStep sm) with
    | none => none
    | some _ =>
      match sm.fStep with
      | none => none
      | some step =>
        if step.GetPostStepPoint.GetStepStatus = G4StepStatus.fGeomBoundary then some true
        else some false
  else some false

/-- Function `IsTrackInside()`. -/
def IsTrackInside (env : Services) (sm : TG4StepManager) : Option Bool :=
  if sm.fStepStatus = TG4StepStatus.kNormalStep then
    match IsTrackExiting env sm with
    | none => none
    | some exiting => if !exiting then some true else some false
  else some false

/-- Function `IsTrackEntering()`. -/
def IsTrackEntering (sm : TG4StepManager) : Bool :=
  if sm.fStepStatus ≠ TG4StepStatus.kNormalStep then true else false

/-- Function `IsTrackOut()`. -/
def IsTrackOut (env : Services) (sm : TG4StepManager) : Option Bool :=
  if sm.fStepStatus = TG4StepStatus.kVertex then some false
  else
    match ifMCDEBUG env (CheckStep sm) with
    | none => none
    | some _ =>
      match sm.fStep with
      | none => none
      | some step =>
        if step.GetPostStepPoint.GetStepStatus = G4StepStatus.fWorldBoundary then some true
        else some false

/-- Function `IsTrackStop()`. -/
def IsTrackStop (env : Services) (sm : TG4StepManager) : Option Bool :=
  match ifMCDEBUG env (CheckTrack sm) with
  | none => none
  | some _ =>
    match sm.fTrack with
    | none => none
    | some track =>
      let status := track.GetTrackStatus
      if status = G4TrackStatus.fStopAndKill ∨ status = G4TrackStatus.fKillTrackAndSecondaries ∨
          status = G4TrackStatus.fSuspend ∨ status = G4TrackStatus.fPostponeToNextEvent then
        some true
      else some false

/-- Function `IsTrackDisappeared()`. -/
def IsTrackDisappeared (env : Services) (sm : TG4StepManager) : Option Bool :=
  match ifMCDEBUG env (CheckTrack sm) with
  | none => none
  | some _ =>
    match sm.fTrack with
    | none => none
    | some track =>
      let status := track.GetTrackStatus
      if status = G4TrackStatus.fStopAndKill ∨ status = G4TrackStatus.fKillTrackAndSecondaries ∨
          status = G4TrackStatus.fPostponeToNextEvent then
        some true
      else some false

/-- Function `IsTrackAlive()`. -/
def IsTrackAlive (env : Services) (sm : TG4StepManager) : Option Bool :=
  match ifMCDEBUG env (CheckTrack sm) with
  | none => none
  | some _ =>
    match sm.fTrack with
    | none => none
    | some track =>
      let status := track.GetTrackStatus
      if status = G4TrackStatus.fAlive ∨ status = G4TrackStatus.fStopButAlive then some true
      else some false

end TG4StepManager

/-! ## Particles checker: embedding of `TG4ParticlesChecker.cxx` -/

/-- Particle `TParticlePDG` of Root: the properties the checker reads. -/
structure TParticlePDG where
  Mass : G4double := 0
  Charge : G4double := 0
  Lifetime : G4double := 0
  Width : G4double := 0
  Parity : G4int := 0
  Spin : G4double := 0
  Isospin : G4double := 0
  I3 : G4double := 0
  deriving DecidableEq

/-- Unit constants `GeV` and `second` of the Geant4 system of units. -/
structure SystemOfUnits where
  GeV : G4double := 1000
  second : G4double := 1000000000
  deriving DecidableEq

/-- Data members of `TG4ParticlesChecker` read by `CheckProperty`. -/
structure TG4ParticlesChecker where
  fPrecision : G4double := 1 / 1000000

namespace TG4ParticlesChecker

/-- Enumeration `TG4ParticlesChecker::ParticleProperty`. -/
inductive ParticleProperty where
  | kMass
  | kCharge
  | kLifetime
  | kWidth
  | kParity
  | kSpin
  | kIsospin
  | kIsospin3
  | kNone
  deriving DecidableEq, Repr

/-- Function `IsEqualRel(dx, dy, epsilon)`. -/
def IsEqualRel (dx dy epsilon : G4double) : Bool :=
  decide (|dx - dy| ≤ epsilon * |dx|)

/-- Function `GetPropertyValue(property, g4Particle)` for a Geant4 particle. -/
def GetPropertyValue (units : SystemOfUnits) (property : ParticleProperty)
    (g4Particle : G4ParticleDefinition) : G4double :=
  match property with
  | ParticleProperty.kMass => g4Particle.GetPDGMass / units.GeV
  | ParticleProperty.kCharge => g4Particle.GetPDGCharge
  | ParticleProperty.kLifetime => g4Particle.GetPDGLifeTime / units.second
  | ParticleProperty.kWidth => g4Particle.GetPDGWidth / units.GeV
  | ParticleProperty.kParity => (g4Particle.GetPDGiParity : G4double)
  | ParticleProperty.kSpin => g4Particle.GetPDGSpin
  | ParticleProperty.kIsospin => g4Particle.GetPDGIsospin
  | ParticleProperty.kIsospin3 => g4Particle.GetPDGIsospin3
  | ParticleProperty.kNone => 0

/-- Function `GetPropertyValue(property, rtParticle)` for a Root particle. -/
def GetPropertyValueRoot (property : ParticleProperty) (rtParticle : TParticlePDG) : G4double :=
  match property with
  | ParticleProperty.kMass => rtParticle.Mass
  | ParticleProperty.kCharge => rtParticle.Charge / 3
  | ParticleProperty.kLifetime => rtParticle.Lifetime
  | ParticleProperty.kWidth => rtParticle.Width
  | ParticleProperty.kParity => (rtParticle.Parity : G4double)
  | ParticleProperty.kSpin => rtParticle.Spin
  | ParticleProperty.kIsospin => rtParticle.Isospin
  | ParticleProperty.kIsospin3 => rtParticle.I3
  | ParticleProperty.kNone => 0

/-- Function `CheckProperty(property, g4Particle, rtParticle)`: the returned flag (the printed
lines are left out). -/
def CheckProperty (checker : TG4ParticlesChecker) (units : SystemOfUnits)
    (property : ParticleProperty) (g4Particle : G4ParticleDefinition)
    (rtParticle : TParticlePDG) : Bool :=
  let g4Value := GetPropertyValue units property g4Particle
  let rtValue := GetPropertyValueRoot property rtParticle
  if (!IsEqualRel g4Value rtValue checker.fPrecision) &&
      !(decide (property = ParticleProperty.kLifetime) && decide (g4Value < 0)
        && decide (rtValue = 0)) then
    false
  else true

end TG4ParticlesChecker

open TG4StepManager

/-- The sensitive-detector id and copy number that the specification assigns to a physical
volume under given offsets: the id registered for its logical volume, and its raw copy number
plus the copy-number offset, plus the division offset when the volume is parameterised or replicated. -/
def specVolumeIdAndCopyNo (env : Services) (copyNoOffset divisionCopyNoOffset : G4int)
    (volume : G4VPhysicalVolume) : G4int × G4int :=
  (env.GetVolumeID volume.GetLogicalVolume,
    volume.GetCopyNo + copyNoOffset +
      (if volume.IsParameterised = true ∨ volume.IsReplicated = true then
        divisionCopyNoOffset else 0))

/-! ### Sample data: a world volume holding a replicated layer -/

/-- Sample world volume. -/
def sampleWorld : G4VPhysicalVolume :=
  { GetName := "WRLD", GetCopyNo := 0, GetLogicalVolume := { GetName := "WRLD" } }

/-- Sample replicated volume placed in the world, raw copy number 0. -/
def sampleLayer : G4VPhysicalVolume :=
  { GetName := "LAYE", GetCopyNo := 0, IsReplicated := true,
    GetLogicalVolume := { GetName := "LAYE" } }

/-- Sample plain placement in the world, raw copy number 0. -/
def sampleBox : G4VPhysicalVolume :=
  { GetName := "CALO", GetCopyNo := 0, GetLogicalVolume := { GetName := "CALO" } }

/-- Sample services: sensitive-detector ids 7, 3 and 5 for the three sample volumes. -/
def sampleServices : Services :=
  { GetVolumeID := fun lv =>
      if lv.GetName = "WRLD" then 7 else if lv.GetName = "LAYE" then 3
      else if lv.GetName = "CALO" then 5 else 0 }

/-- Sample track inside the replicated layer, about to enter the plain box. -/
def sampleTrack : G4Track :=
  { GetTouchable := some (G4TouchableHistory [sampleWorld, sampleLayer]),
    GetNextTouchable := some (G4TouchableHistory [sampleWorld, sampleBox]),
    GetVolume := some sampleLayer,
    GetNextVolume := some sampleBox }

/-- Sample step manager of a "RootToGeant4" geometry, in a normal step of the sample track. -/
def sampleRootManager : TG4StepManager :=
  { create "RootToGeant4" with fTrack := some sampleTrack }

/-- Sample step manager of a "VMCtoGeant4" geometry, at a boundary of the sample track. -/
def sampleVMCBoundaryManager : TG4StepManager :=
  { create "VMCtoGeant4" with
    fTrack := some sampleTrack, fStepStatus := TG4StepStatus.kBoundary }

/-- Sample step manager of a "VMCtoGeant4" geometry, in a normal step of the sample track. -/
def sampleVMCManager : TG4StepManager :=
  { create "VMCtoGeant4" with fTrack := some sampleTrack }

/-! ### Sample data: secondaries and processes -/

/-- Sample ionisation process. -/
def sampleIoni : G4VProcess := { GetProcessName := "eIoni", GetProcessSubType := 2 }

/-- Sample bremsstrahlung process. -/
def sampleBrem : G4VProcess := { GetProcessName := "eBrem", GetProcessSubType := 3 }

/-- Sample transportation process. -/
def sampleTransportation : G4VProcess :=
  { GetProcessName := "Transportation", GetProcessSubType := TRANSPORTATION }

/-- Sample optical absorption process. -/
def sampleOpAbsorption : G4VProcess := { GetProcessName := "OpAbsorption", GetProcessSubType := 31 }

/-- Sample physics manager classification of the sample processes. -/
def sampleGetMCProcess : Option G4VProcess → TMCProcess
  | none => TMCProcess.kPPrimary
  | some process =>
    if process.GetProcessName = "eIoni" then TMCProcess.kPEnergyLoss
    else if process.GetProcessName = "eBrem" then TMCProcess.kPBrem
    else if process.GetProcessName = "Transportation" then TMCProcess.kPTransportation
    else if process.GetProcessName = "OpAbsorption" then TMCProcess.kPLightAbsorption
    else TMCProcess.kPNoProcess

/-- Sample optical photon definition, with transportation and absorption along the step. -/
def sampleOpticalPhoton : G4ParticleDefinition :=
  { GetParticleName := "opticalphoton", GetPDGEncoding := -22,
    GetProcessManager :=
      { GetAlongStepProcessVector := [some sampleTransportation, some sampleOpAbsorption] } }

/-- Sample services with units 10 (length), 2 (time) and 1000 (energy), the sample process
classification, and an optical-boundary process reporting a reflection. -/
def sampleStepServices : Services :=
  { sampleServices with
    GetMCProcess := sampleGetMCProcess,
    IsOpBoundaryProcess := true,
    GetOpBoundaryStatus := TMCProcess.kPLightReflection,
    OpticalPhotonDefinition := sampleOpticalPhoton,
    Units := { Length := 10, Time := 2, Energy := 1000 } }

/-- Sample secondary: a gamma from bremsstrahlung of an earlier step. -/
def sampleSecondary0 : G4Track :=
  { GetDynamicParticle := { GetDefinition := { GetParticleName := "gamma", GetPDGEncoding := 22 },
                            GetTotalEnergy := 3000 },
    GetPosition := { x := 10, y := 20, z := 30 }, GetGlobalTime := 4,
    GetMomentum := { x := 0, y := 0, z := 3000 },
    GetCreatorProcess := some sampleBrem }

/-- Sample secondary: an electron from ionisation in the current step. -/
def sampleSecondary1 : G4Track :=
  { GetDynamicParticle := { GetDefinition := { GetParticleName := "e-", GetPDGEncoding := 11 },
                            GetTotalEnergy := 2000 },
    GetPosition := { x := 40, y := 50, z := 60 }, GetGlobalTime := 6,
    GetMomentum := { x := 1000, y := 0, z := 0 },
    GetCreatorProcess := some sampleIoni }

/-- Sample secondary: a gamma from bremsstrahlung in the current step. -/
def sampleSecondary2 : G4Track :=
  { GetDynamicParticle := { GetDefinition := { GetParticleName := "gamma", GetPDGEncoding := 22 },
                            GetTotalEnergy := 5000 },
    GetPosition := { x := 70, y := 80, z := 90 }, GetGlobalTime := 8,
    GetMomentum := { x := 0, y := 5000, z := 0 },
    GetCreatorProcess := some sampleBrem }

/-- Sample stepping manager: three secondaries in the track's history, two of them made in the
current step (one along the step, one after it). -/
def sampleSteppingManager : G4SteppingManager :=
  { GetfN2ndariesAtRestDoIt := 0, GetfN2ndariesAlongStepDoIt := 1,
    GetfN2ndariesPostStepDoIt := 1,
    GetSecondary := some [sampleSecondary0, sampleSecondary1, sampleSecondary2] }

/-- Sample step manager in a normal step with the sample stepping manager. -/
def sampleSecondariesManager : TG4StepManager :=
  { create "VMCtoGeant4" with
    fTrack := some sampleTrack, fStep := some {},
    fSteppingManager := some sampleSteppingManager }

/-- Sample step of an optical photon ended by transportation. -/
def sampleOpticalStep : G4Step :=
  { GetTrack := { GetDynamicParticle := { GetDefinition := sampleOpticalPhoton } },
    GetPostStepPoint := { GetProcessDefinedStep := some sampleTransportation } }

/-- Sample step manager in a normal step of the sample optical photon. -/
def sampleOpticalManager : TG4StepManager :=
  { create "VMCtoGeant4" with
    fTrack := some sampleOpticalStep.GetTrack, fStep := some sampleOpticalStep,
    fSteppingManager := some sampleSteppingManager }

/-- Sample step of an optical photon ended by absorption. -/
def sampleAbsorbedStep : G4Step :=
  { GetTrack := { GetDynamicParticle := { GetDefinition := sampleOpticalPhoton } },
    GetPostStepPoint := { GetProcessDefinedStep := some sampleOpAbsorption } }

/-- Sample step manager in a normal step of the absorbed optical photon. -/
def sampleAbsorbedManager : TG4StepManager :=
  { create "VMCtoGeant4" with
    fTrack := some sampleAbsorbedStep.GetTrack, fStep := some sampleAbsorbedStep,
    fSteppingManager := some sampleSteppingManager }

/-- The rows of the matrix of a transform are orthonormal: the transform is a rotation or
reflection followed by a translation, as the transform of a touchable is, and
`G4AffineTransform::Inverse()` is then its inverse map. -/
def G4AffineTransform.RowsOrthonormal (t : G4AffineTransform) : Prop :=
  t.rxx * t.rxx + t.rxy * t.rxy + t.rxz * t.rxz = 1
  ∧ t.ryx * t.ryx + t.ryy * t.ryy + t.ryz * t.ryz = 1
  ∧ t.rzx * t.rzx + t.rzy * t.rzy + t.rzz * t.rzz = 1
  ∧ t.rxx * t.ryx + t.rxy * t.ryy + t.rxz * t.ryz = 0
  ∧ t.rxx * t.rzx + t.rxy * t.rzy + t.rxz * t.rzz = 0
  ∧ t.ryx * t.rzx + t.ryy * t.rzy + t.ryz * t.rzz = 0

instance (t : G4AffineTransform) : Decidable t.RowsOrthonormal := by
  unfold G4AffineTransform.RowsOrthonormal
  infer_instance

/-- The value of the run-is-stopping flag after a sequence of effects, `flag` being its value
before them: the last `SetIsStopRun` decides. -/
def isStopRunAfter (flag : Bool) : List Effect → Bool
  | [] => flag
  | Effect.SetIsStopRun value :: rest => isStopRunAfter value rest
  | _ :: rest => isStopRunAfter flag rest

/-! ### Sample data: transforms, kinematics, track control and step limits -/

/-- Sample transform: a quarter turn about the z axis and a translation by (1, 2, 3). -/
def sampleTransform : G4AffineTransform :=
  { rxx := 0, rxy := 1, rxz := 0,
    ryx := -1, ryy := 0, ryz := 0,
    rzx := 0, rzy := 0, rzz := 1,
    tx := 1, ty := 2, tz := 3 }

/-- Sample touchable of the replicated layer carrying the sample transform. -/
def sampleTransformTouchable : G4VTouchable :=
  { G4TouchableHistory [sampleWorld, sampleLayer] with
    GetHistory := { GetTopTransform := sampleTransform } }

/-- Sample services with length unit 10 and time unit 2. -/
def sampleUnitServices : Services :=
  { sampleServices with Units := { Length := 10, Time := 2, Energy := 1000 } }

/-- Sample track at position (30, 40, 50) and time 6, after 7 steps and a path of 50, with an
annotation that is not interrupted. -/
def sampleMovingTrack : G4Track :=
  { GetTouchable := some sampleTransformTouchable,
    GetVolume := some sampleLayer,
    GetPosition := { x := 30, y := 40, z := 50 },
    GetGlobalTime := 6,
    GetTrackLength := 50,
    GetCurrentStepNumber := 7,
    GetUserInformation := some { IsInterrupt := false } }

/-- Sample step manager in a normal step of the sample moving track, initialised late. -/
def sampleMovingManager : TG4StepManager :=
  LateInitialize sampleUnitServices { create "VMCtoGeant4" with fTrack := some sampleMovingTrack }

/-- Sample Gflash spot with its energy spot at (70, 80, 90). -/
def sampleSpot : G4GFlashSpot :=
  { GetTouchableHandle := some sampleTransformTouchable,
    GetEnergySpot := some { GetPosition := { x := 70, y := 80, z := 90 }, GetEnergy := 2000 } }

/-- Sample volume with user limits at address 4. -/
def sampleLimitedVolume : G4VPhysicalVolume :=
  { GetName := "TRKR", GetCopyNo := 0,
    GetLogicalVolume := { GetName := "TRKR", GetUserLimits := some 4 } }

/-- Sample step manager in a normal step of a track inside the volume with limits. -/
def sampleLimitedManager : TG4StepManager :=
  { create "VMCtoGeant4" with fTrack := some { GetVolume := some sampleLimitedVolume } }

/-- Sample limits store: every limits object allows steps of 100. -/
def sampleStore : LimitsStore :=
  fun _ => { maxAllowedStep := 100, previousMaxAllowedStep := 100 }

/-- The two copy-number offsets of a step manager. -/
def copyNoOffsets (sm : TG4StepManager) : G4int × G4int :=
  (sm.fCopyNoOffset, sm.fDivisionCopyNoOffset)

/-- The segment of a volume in a volume path, in the words of the specification: "/", the user
name of the volume, "_", and its copy number. -/
def specPathSegment (env : Services) (volume : G4VPhysicalVolume) : String :=
  "/" ++ env.UserVolumeName volume.GetName ++ "_" ++ toString volume.GetCopyNo

/-! ### Sample data: Gflash-spot regime, stable particle -/

/-- Sample step manager at a Gflash spot: track and spot are set, no step is. -/
def sampleSpotManager : TG4StepManager :=
  { create "VMCtoGeant4" with
    fTrack := some sampleMovingTrack, fStep := none, fGflashSpot := some sampleSpot,
    fStepStatus := TG4StepStatus.kGflashSpot }

/-- Sample stable particle of Geant4: lifetime -1. -/
def sampleStableG4 : G4ParticleDefinition :=
  { GetParticleName := "proton", GetPDGEncoding := 2212, GetPDGLifeTime := -1 }

/-- Sample stable particle of Root: lifetime 0. -/
def sampleStableRoot : TParticlePDG :=
  { Lifetime := 0 }

/-! # Theorems -/

/-! ## Geometry accessor -/


/-- The value computed by `CurrentVolID` from the volume that `GetCurrentPhysicalVolume`
returns. -/
theorem CurrentVolID_of_volume (env : Services) (sm : TG4StepManager) :
    CurrentVolID env sm
      = (GetCurrentPhysicalVolume env sm).bind
          (fun physVolume => physVolume.map (specVolumeIdAndCopyNo env sm.fCopyNoOffset sm.fDivisionCopyNoOffset)) := by
  unfold CurrentVolID
  cases h : GetCurrentPhysicalVolume env sm with
  | none => rfl
  | some p =>
    cases p with
    | none => rfl
    | some v =>
      simp only [Option.bind, Option.map, specVolumeIdAndCopyNo, Bool.or_eq_true]
      split <;> simp

/-- C1: `CurrentVolID` takes the current physical volume from the source fixed by the step
status: the volume of the spot's touchable with `kGflashSpot`, the track's next volume with
`kBoundary`, the track's current volume with `kVertex` and `kNormalStep`; with `kBoundary` the
result does not depend on the track's current (pre-step) volume or touchable. -/
theorem CurrentVolID_regime_source (env : Services) (sm : TG4StepManager) (track : G4Track)
    (touchable : G4VTouchable) :
    (GetCurrentPhysicalVolume env
        { sm with fStepStatus := TG4StepStatus.kGflashSpot, fTrack := some track,
                  fGflashSpot := some { GetTouchableHandle := some touchable } }
        = some (touchable.GetVolume 0)
      ∧ CurrentVolID env
        { sm with fStepStatus := TG4StepStatus.kGflashSpot, fTrack := some track,
                  fGflashSpot := some { GetTouchableHandle := some touchable } }
        = (touchable.GetVolume 0).map (specVolumeIdAndCopyNo env sm.fCopyNoOffset sm.fDivisionCopyNoOffset))
    ∧ (GetCurrentPhysicalVolume env
        { sm with fStepStatus := TG4StepStatus.kBoundary, fTrack := some track }
        = some track.GetNextVolume
      ∧ CurrentVolID env
        { sm with fStepStatus := TG4StepStatus.kBoundary, fTrack := some track }
        = track.GetNextVolume.map (specVolumeIdAndCopyNo env sm.fCopyNoOffset sm.fDivisionCopyNoOffset))
    ∧ (GetCurrentPhysicalVolume env
        { sm with fStepStatus := TG4StepStatus.kVertex, fTrack := some track }
        = some track.GetVolume
      ∧ CurrentVolID env
        { sm with fStepStatus := TG4StepStatus.kVertex, fTrack := some track }
        = track.GetVolume.map
            (specVolumeIdAndCopyNo env sm.fCopyNoOffset sm.fDivisionCopyNoOffset))
    ∧ (GetCurrentPhysicalVolume env
        { sm with fStepStatus := TG4StepStatus.kNormalStep, fTrack := some track }
        = some track.GetVolume
      ∧ CurrentVolID env
        { sm with fStepStatus := TG4StepStatus.kNormalStep, fTrack := some track }
        = track.GetVolume.map
            (specVolumeIdAndCopyNo env sm.fCopyNoOffset sm.fDivisionCopyNoOffset))
    ∧ (∀ (volume : Option G4VPhysicalVolume) (pre : Option G4VTouchable),
        CurrentVolID env
          { sm with fStepStatus := TG4StepStatus.kBoundary,
                    fTrack := some { track with GetVolume := volume, GetTouchable := pre } }
        = CurrentVolID env
          { sm with fStepStatus := TG4StepStatus.kBoundary, fTrack := some track }) := by
  refine ⟨⟨?_, ?_⟩, ⟨?_, ?_⟩, ⟨?_, ?_⟩, ⟨?_, ?_⟩, ?_⟩
  · cases h : env.MCDEBUG <;> simp [GetCurrentPhysicalVolume, ifMCDEBUG, CheckTrack, h]
  · rw [CurrentVolID_of_volume]
    cases h : env.MCDEBUG <;> simp [GetCurrentPhysicalVolume, ifMCDEBUG, CheckTrack, h]
  · cases h : env.MCDEBUG <;> simp [GetCurrentPhysicalVolume, ifMCDEBUG, CheckTrack, h]
  · rw [CurrentVolID_of_volume]
    cases h : env.MCDEBUG <;> simp [GetCurrentPhysicalVolume, ifMCDEBUG, CheckTrack, h]
  · cases h : env.MCDEBUG <;> simp [GetCurrentPhysicalVolume, ifMCDEBUG, CheckTrack, h]
  · rw [CurrentVolID_of_volume]
    cases h : env.MCDEBUG <;> simp [GetCurrentPhysicalVolume, ifMCDEBUG, CheckTrack, h]
  · cases h : env.MCDEBUG <;> simp [GetCurrentPhysicalVolume, ifMCDEBUG, CheckTrack, h]
  · rw [CurrentVolID_of_volume]
    cases h : env.MCDEBUG <;> simp [GetCurrentPhysicalVolume, ifMCDEBUG, CheckTrack, h]
  · intro volume pre
    rw [CurrentVolID_of_volume, CurrentVolID_of_volume]
    cases h : env.MCDEBUG <;> simp [GetCurrentPhysicalVolume, ifMCDEBUG, CheckTrack, h]

/-- The pair computed by `CurrentVolID` when the current physical volume is known. -/
theorem CurrentVolID_spec_pair (env : Services) (sm : TG4StepManager)
    (physVolume : G4VPhysicalVolume)
    (hvolume : GetCurrentPhysicalVolume env sm = some (some physVolume)) :
    CurrentVolID env sm
      = some (specVolumeIdAndCopyNo env sm.fCopyNoOffset sm.fDivisionCopyNoOffset physVolume) := by
  rw [CurrentVolID_of_volume, hvolume]
  rfl

/-- C2: when the current physical volume has raw copy number `c`, `CurrentVolID` fills
`c + fCopyNoOffset`, plus `fDivisionCopyNoOffset` exactly when the volume is parameterised or
replicated, and returns the sensitive-detector id registered for the volume's logical volume. -/
theorem CurrentVolID_copyNo_and_id (env : Services) (sm : TG4StepManager)
    (physVolume : G4VPhysicalVolume)
    (hvolume : GetCurrentPhysicalVolume env sm = some (some physVolume)) :
    CurrentVolID env sm
      = some (env.GetVolumeID physVolume.GetLogicalVolume,
          physVolume.GetCopyNo + sm.fCopyNoOffset +
            (if physVolume.IsParameterised = true ∨ physVolume.IsReplicated = true then
              sm.fDivisionCopyNoOffset else 0)) := by
  rw [CurrentVolID_of_volume, hvolume]
  rfl

/-- Witness of C2 on the sample "RootToGeant4" manager: the replicated layer with raw copy
number 0 gets id 3 and copy number 0 + 0 + 1. -/
theorem CurrentVolID_copyNo_and_id_witness :
    GetCurrentPhysicalVolume sampleServices sampleRootManager = some (some sampleLayer)
    ∧ CurrentVolID sampleServices sampleRootManager
      = some (sampleServices.GetVolumeID sampleLayer.GetLogicalVolume,
          sampleLayer.GetCopyNo + sampleRootManager.fCopyNoOffset +
            (if sampleLayer.IsParameterised = true ∨ sampleLayer.IsReplicated = true then
              sampleRootManager.fDivisionCopyNoOffset else 0)) :=
  ⟨by decide, CurrentVolID_copyNo_and_id sampleServices sampleRootManager sampleLayer (by decide)⟩

/-- Counterexample to C3 as stated: with geometry origin "RootToGeant4" the constructor leaves
`fCopyNoOffset` at 0 and sets only `fDivisionCopyNoOffset` to 1, so a replicated volume with raw
copy number 0 gets copy number 1, not 2. -/
theorem CurrentVolID_RootToGeant4_counterexample :
    sampleRootManager.fCopyNoOffset = (create "RootToGeant4").fCopyNoOffset
    ∧ sampleRootManager.fDivisionCopyNoOffset = (create "RootToGeant4").fDivisionCopyNoOffset
    ∧ GetCurrentPhysicalVolume sampleServices sampleRootManager = some (some sampleLayer)
    ∧ sampleLayer.IsReplicated = true
    ∧ sampleLayer.GetCopyNo = 0
    ∧ CurrentVolID sampleServices sampleRootManager = some (3, 1)
    ∧ (CurrentVolID sampleServices sampleRootManager).map Prod.snd ≠ some 2 := by
  decide

/-- C3 (amended): for a step manager constructed with geometry origin "RootToGeant4", whatever
track, step, spot, status and stepping manager are set afterwards, `CurrentVolID` on a replicated
current volume with raw copy number 0 fills copy number 1 (0 + 0 offset + 1 division offset). -/
theorem CurrentVolID_RootToGeant4_replicated (env : Services) (track : Option G4Track)
    (step : Option G4Step) (spot : Option G4GFlashSpot) (status : TG4StepStatus)
    (steppingManager : Option G4SteppingManager) (physVolume : G4VPhysicalVolume)
    (hvolume : GetCurrentPhysicalVolume env
      { create "RootToGeant4" with
        fTrack := track, fStep := step, fGflashSpot := spot, fStepStatus := status,
        fSteppingManager := steppingManager } = some (some physVolume))
    (hreplicated : physVolume.IsReplicated = true)
    (hraw : physVolume.GetCopyNo = 0) :
    (CurrentVolID env
      { create "RootToGeant4" with
        fTrack := track, fStep := step, fGflashSpot := spot, fStepStatus := status,
        fSteppingManager := steppingManager }).map Prod.snd = some 1 := by
  rw [CurrentVolID_of_volume, hvolume]
  simp [specVolumeIdAndCopyNo, hreplicated, hraw, create]

/-- Witness of the amended C3 on the sample track in the replicated layer. -/
theorem CurrentVolID_RootToGeant4_replicated_witness :
    (CurrentVolID sampleServices
      { create "RootToGeant4" with
        fTrack := some sampleTrack, fStep := none, fGflashSpot := none,
        fStepStatus := TG4StepStatus.kNormalStep,
        fSteppingManager := none }).map Prod.snd = some 1 :=
  CurrentVolID_RootToGeant4_replicated sampleServices (some sampleTrack) none none
    TG4StepStatus.kNormalStep none sampleLayer (by decide) (by decide) (by decide)

/-- C4: for a step manager constructed with geometry origin "VMCtoGeant4", whatever track, step,
spot, status and stepping manager are set afterwards, `CurrentVolID` on a current volume that is
neither replicated nor parameterised and has raw copy number 0 fills copy number 1. -/
theorem CurrentVolID_VMCtoGeant4_plain (env : Services) (track : Option G4Track)
    (step : Option G4Step) (spot : Option G4GFlashSpot) (status : TG4StepStatus)
    (steppingManager : Option G4SteppingManager) (physVolume : G4VPhysicalVolume)
    (hvolume : GetCurrentPhysicalVolume env
      { create "VMCtoGeant4" with
        fTrack := track, fStep := step, fGflashSpot := spot, fStepStatus := status,
        fSteppingManager := steppingManager } = some (some physVolume))
    (hreplicated : physVolume.IsReplicated = false)
    (hparameterised : physVolume.IsParameterised = false)
    (hraw : physVolume.GetCopyNo = 0) :
    (CurrentVolID env
      { create "VMCtoGeant4" with
        fTrack := track, fStep := step, fGflashSpot := spot, fStepStatus := status,
        fSteppingManager := steppingManager }).map Prod.snd = some 1 := by
  rw [CurrentVolID_of_volume, hvolume]
  simp [specVolumeIdAndCopyNo, hreplicated, hparameterised, hraw, create]

/-- Witness of C4: the sample track at a boundary, entering the plain box. -/
theorem CurrentVolID_VMCtoGeant4_plain_witness :
    (CurrentVolID sampleServices
      { create "VMCtoGeant4" with
        fTrack := some sampleTrack, fStep := none, fGflashSpot := none,
        fStepStatus := TG4StepStatus.kBoundary,
        fSteppingManager := none }).map Prod.snd = some 1 :=
  CurrentVolID_VMCtoGeant4_plain sampleServices (some sampleTrack) none none
    TG4StepStatus.kBoundary none sampleBox (by decide) (by decide) (by decide) (by decide)

/-- Counterexample to C5 as stated: the sample touchable has history depth 1, and for `n = 1`
(equal to the depth) `CurrentVolOffID` returns the world volume, id 7 with copy number 1, and
not the null id with copy number 0. -/
theorem CurrentVolOffID_at_depth_counterexample :
    (GetCurrentTouchable sampleServices sampleVMCManager).map
        (Option.map G4VTouchable.GetHistoryDepth) = some (some 1)
    ∧ CurrentVolOffID sampleServices sampleVMCManager 1 = some ((7, 1), [])
    ∧ CurrentVolOffID sampleServices sampleVMCManager 1 ≠ some ((0, 0), []) := by
  decide

/-- C5 (amended): when the current touchable has history depth `d ≥ 0` and `n > d`,
`CurrentVolOffID(n, copyNo)` returns the null id 0 and sets `copyNo` to 0 and does not fail; the
only report is one warning, made exactly when warnings are requested (in a build with `MCDEBUG`,
or by the default of the parameter `warn`), in which case the touchable must have a volume to
name. -/
theorem CurrentVolOffID_above_depth (env : Services) (sm : TG4StepManager)
    (touchable : G4VTouchable) (n : G4int)
    (htouchable : GetCurrentTouchable env sm = some (some touchable))
    (hdepth : 0 ≤ touchable.GetHistoryDepth)
    (hn : touchable.GetHistoryDepth < n)
    (hname : (env.MCDEBUG || env.warnDefault) = true → (touchable.GetVolume 0).isSome = true) :
    ∃ warnings, CurrentVolOffID env sm n = some ((0, 0), warnings)
      ∧ warnings.length = (if (env.MCDEBUG || env.warnDefault) = true then 1 else 0) := by
  have hn0 : n ≠ 0 := ne_of_gt (lt_of_le_of_lt hdepth hn)
  have hflag : (if env.MCDEBUG = true then true else env.warnDefault)
      = (env.MCDEBUG || env.warnDefault) := by
    cases env.MCDEBUG <;> simp
  unfold CurrentVolOffID GetCurrentOffPhysicalVolume
  rw [if_neg hn0, htouchable, hflag]
  simp only [hn, if_true]
  cases hw : (env.MCDEBUG || env.warnDefault) with
  | false => exact ⟨[], by simp⟩
  | true =>
    have hsome := hname hw
    cases hv : touchable.GetVolume 0 with
    | none => simp [hv] at hsome
    | some volume => exact ⟨_, rfl, rfl⟩

/-- Witness of the amended C5: two levels above the sample layer (history depth 1) there is no
mother, in a build with `MCDEBUG`. -/
theorem CurrentVolOffID_above_depth_witness :
    ∃ warnings, CurrentVolOffID { sampleServices with MCDEBUG := true } sampleVMCManager 2
        = some ((0, 0), warnings)
      ∧ warnings.length
        = (if ({ sampleServices with MCDEBUG := true }.MCDEBUG
              || { sampleServices with MCDEBUG := true }.warnDefault) = true then 1 else 0) :=
  CurrentVolOffID_above_depth { sampleServices with MCDEBUG := true } sampleVMCManager
    (G4TouchableHistory [sampleWorld, sampleLayer]) 2 (by rfl) (by decide) (by decide)
    (by decide)

/-- C6: in every state with a current physical volume, `CurrentVolID(copyNo)` returns an id and
fills a copy number, and `CurrentVolOffID(0, copyNo)` returns the same id and fills the same copy
number, without any warning. -/
theorem CurrentVolOffID_zero_eq_CurrentVolID (env : Services) (sm : TG4StepManager)
    (physVolume : G4VPhysicalVolume)
    (hvolume : GetCurrentPhysicalVolume env sm = some (some physVolume)) :
    ∃ id copyNo, CurrentVolID env sm = some (id, copyNo)
      ∧ CurrentVolOffID env sm 0 = some ((id, copyNo), []) := by
  have hid := CurrentVolID_spec_pair env sm physVolume hvolume
  refine ⟨(specVolumeIdAndCopyNo env sm.fCopyNoOffset sm.fDivisionCopyNoOffset physVolume).1,
    (specVolumeIdAndCopyNo env sm.fCopyNoOffset sm.fDivisionCopyNoOffset physVolume).2, hid, ?_⟩
  unfold CurrentVolOffID
  rw [if_pos rfl, hid]

/-- Witness of C6 on the sample "VMCtoGeant4" manager at a boundary. -/
theorem CurrentVolOffID_zero_eq_CurrentVolID_witness :
    ∃ id copyNo, CurrentVolID sampleServices sampleVMCBoundaryManager = some (id, copyNo)
      ∧ CurrentVolOffID sampleServices sampleVMCBoundaryManager 0 = some ((id, copyNo), []) :=
  CurrentVolOffID_zero_eq_CurrentVolID sampleServices sampleVMCBoundaryManager sampleBox
    (by decide)

/-! ## Secondaries and processes -/

/-- C8: `NSecondaries()` returns 0 with status `kVertex` or `kGflashSpot`, whatever the stepping
manager reports (or whether there is one); with `kNormalStep` or `kBoundary` it returns the sum of
the at-rest, along-step and post-step secondary counts of the stepping manager. -/
theorem NSecondaries_by_status (env : Services) (sm : TG4StepManager)
    (steppingManager : G4SteppingManager) :
    NSecondaries env { sm with fStepStatus := TG4StepStatus.kVertex } = some 0
    ∧ NSecondaries env { sm with fStepStatus := TG4StepStatus.kGflashSpot } = some 0
    ∧ NSecondaries env
        { sm with fStepStatus := TG4StepStatus.kNormalStep,
                  fSteppingManager := some steppingManager }
      = some (steppingManager.GetfN2ndariesAtRestDoIt
          + steppingManager.GetfN2ndariesAlongStepDoIt
          + steppingManager.GetfN2ndariesPostStepDoIt)
    ∧ NSecondaries env
        { sm with fStepStatus := TG4StepStatus.kBoundary,
                  fSteppingManager := some steppingManager }
      = some (steppingManager.GetfN2ndariesAtRestDoIt
          + steppingManager.GetfN2ndariesAlongStepDoIt
          + steppingManager.GetfN2ndariesPostStepDoIt) := by
  refine ⟨?_, ?_, ?_, ?_⟩
  · simp [NSecondaries]
  · simp [NSecondaries]
  · cases h : env.MCDEBUG <;> simp [NSecondaries, ifMCDEBUG, CheckSteppingManager, h]
  · cases h : env.MCDEBUG <;> simp [NSecondaries, ifMCDEBUG, CheckSteppingManager, h]

/-- Element access inside the trailing part of a track vector: entry `i` of the last `k`
entries is entry `size - k + i` of the vector. -/
theorem trackAt_trailing (secondaryTracks : G4TrackVector) (k i : Int)
    (hpos : 0 < k) (hsize : k ≤ ((secondaryTracks.length : Nat) : Int)) (hi0 : 0 ≤ i)
    (hik : i < k) :
    ∃ track, trackAt secondaryTracks (((secondaryTracks.length : Nat) : Int) - k + i) = some track
      ∧ secondaryTracks.get? (secondaryTracks.length - k.toNat + i.toNat) = some track
      ∧ (secondaryTracks.drop (secondaryTracks.length - k.toNat)).get? i.toNat = some track := by
  have hidx : ((((secondaryTracks.length : Nat) : Int) - k + i).toNat)
      = secondaryTracks.length - k.toNat + i.toNat := by
    omega
  have hlt : secondaryTracks.length - k.toNat + i.toNat < secondaryTracks.length := by
    omega
  have hrange : (0 : Int) ≤ ((secondaryTracks.length : Nat) : Int) - k + i
      ∧ ((secondaryTracks.length : Nat) : Int) - k + i
        < ((secondaryTracks.length : Nat) : Int) := by
    constructor <;> omega
  refine ⟨secondaryTracks.get ⟨_, hlt⟩, ?_, ?_, ?_⟩
  · unfold trackAt
    rw [if_pos hrange, hidx]
    exact List.get?_eq_get hlt
  · exact List.get?_eq_get hlt
  · rw [List.get?_eq_getElem?, List.getElem?_drop, ← List.get?_eq_getElem?]
    exact List.get?_eq_get hlt

/-- C7: when `NSecondaries() = k > 0` and the stepping manager's secondaries vector has size
`s ≥ k`, `GetSecondary(i, ...)` for `0 ≤ i < k` reports the list entry at index `s - k + i`, which
is entry `i` of the trailing `k` entries: its PDG code, its position divided by the length unit
with its global time divided by the time unit, and its momentum and total energy divided by the
energy unit. -/
theorem GetSecondary_trailing_entry (env : Services) (sm : TG4StepManager)
    (steppingManager : G4SteppingManager) (secondaryTracks : G4TrackVector) (k i : G4int)
    (out : SecondaryData)
    (hmanager : sm.fSteppingManager = some steppingManager)
    (hlist : steppingManager.GetSecondary = some secondaryTracks)
    (hcount : NSecondaries env sm = some k)
    (hpos : 0 < k)
    (hsize : k ≤ (secondaryTracks.length : G4int))
    (hi0 : 0 ≤ i) (hik : i < k) :
    ∃ track,
      secondaryTracks.get? (secondaryTracks.length - k.toNat + i.toNat) = some track
      ∧ (secondaryTracks.drop (secondaryTracks.length - k.toNat)).get? i.toNat = some track
      ∧ GetSecondary env sm i out
        = some
          { particleId := track.GetDynamicParticle.GetDefinition.GetPDGEncoding,
            position :=
              { c0 := track.GetPosition.x / env.Units.Length,
                c1 := track.GetPosition.y / env.Units.Length,
                c2 := track.GetPosition.z / env.Units.Length,
                c3 := track.GetGlobalTime / env.Units.Time },
            momentum :=
              { c0 := track.GetMomentum.x / env.Units.Energy,
                c1 := track.GetMomentum.y / env.Units.Energy,
                c2 := track.GetMomentum.z / env.Units.Energy,
                c3 := track.GetDynamicParticle.GetTotalEnergy / env.Units.Energy } } := by
  obtain ⟨track, hat, hget, hdrop⟩ := trackAt_trailing secondaryTracks k i hpos hsize hi0 hik
  refine ⟨track, hget, hdrop, ?_⟩
  have hk0 : k ≠ 0 := ne_of_gt hpos
  have hnot : ¬ (i ≥ k) := not_le.mpr hik
  have hcheck : ifMCDEBUG env (CheckSteppingManager sm) = some () := by
    cases h : env.MCDEBUG <;> simp [ifMCDEBUG, CheckSteppingManager, h, hmanager]
  unfold GetSecondary
  rw [hcheck]
  simp only [hcount, if_neg hk0, hmanager, hlist, hat, decide_eq_false hnot, Bool.and_false,
    SetTLorentzVector, G4ThreeVector.scale, mul_one_div]
  rfl

/-- Witness of C7: with three secondaries in the track's history and two made in the current
step (`s = 3`, `k = 2`), index 1 reports the last entry of the list. -/
theorem GetSecondary_trailing_entry_witness :
    ∃ track,
      [sampleSecondary0, sampleSecondary1, sampleSecondary2].get?
          ([sampleSecondary0, sampleSecondary1, sampleSecondary2].length
            - (2 : G4int).toNat + (1 : G4int).toNat) = some track
      ∧ ([sampleSecondary0, sampleSecondary1, sampleSecondary2].drop
          ([sampleSecondary0, sampleSecondary1, sampleSecondary2].length
            - (2 : G4int).toNat)).get? (1 : G4int).toNat = some track
      ∧ GetSecondary sampleStepServices sampleSecondariesManager 1 {}
        = some
          { particleId := track.GetDynamicParticle.GetDefinition.GetPDGEncoding,
            position :=
              { c0 := track.GetPosition.x / sampleStepServices.Units.Length,
                c1 := track.GetPosition.y / sampleStepServices.Units.Length,
                c2 := track.GetPosition.z / sampleStepServices.Units.Length,
                c3 := track.GetGlobalTime / sampleStepServices.Units.Time },
            momentum :=
              { c0 := track.GetMomentum.x / sampleStepServices.Units.Energy,
                c1 := track.GetMomentum.y / sampleStepServices.Units.Energy,
                c2 := track.GetMomentum.z / sampleStepServices.Units.Energy,
                c3 := track.GetDynamicParticle.GetTotalEnergy
                  / sampleStepServices.Units.Energy } } :=
  GetSecondary_trailing_entry sampleStepServices sampleSecondariesManager sampleSteppingManager
    [sampleSecondary0, sampleSecondary1, sampleSecondary2] 2 1 {} rfl rfl (by decide)
    (by decide) (by decide) (by decide) (by decide)

/-- C9: `ProdProcess` never returns `kPEnergyLoss`, for every state and secondary index; and
when it reaches the secondary selected by the index (a step and a secondaries vector exist,
`NSecondaries()` is not 0, the index is inside the vector), it returns `kPDeltaRay` if the
physics manager classifies the creator process as `kPEnergyLoss`, and the classification
unchanged otherwise. -/
theorem ProdProcess_never_energy_loss (env : Services) (sm : TG4StepManager) (isec : G4int) :
    ProdProcess env sm isec ≠ some TMCProcess.kPEnergyLoss
    ∧ ∀ (step : G4Step) (steppingManager : G4SteppingManager) (secondaries : G4TrackVector)
        (k : G4int) (track : G4Track),
        sm.fStep = some step →
        sm.fSteppingManager = some steppingManager →
        steppingManager.GetSecondary = some secondaries →
        NSecondaries env sm = some k →
        k ≠ 0 →
        trackAt (env.ProcessTrackIfGeneralProcess step secondaries)
          (((env.ProcessTrackIfGeneralProcess step secondaries).length : G4int) - k + isec)
          = some track →
        (env.GetMCProcess track.GetCreatorProcess = TMCProcess.kPEnergyLoss →
          ProdProcess env sm isec = some TMCProcess.kPDeltaRay)
        ∧ (env.GetMCProcess track.GetCreatorProcess ≠ TMCProcess.kPEnergyLoss →
          ProdProcess env sm isec = some (env.GetMCProcess track.GetCreatorProcess)) := by
  constructor
  · unfold ProdProcess
    intro h
    split at h
    · exact Option.noConfusion h
    · split at h
      · exact TMCProcess.noConfusion (Option.some.inj h)
      · split at h
        · exact Option.noConfusion h
        · split at h
          · exact Option.noConfusion h
          · split at h
            · exact Option.noConfusion h
            · simp only at h
              split at h
              · exact Option.noConfusion h
              · split at h
                · exact Option.noConfusion h
                · have h2 := Option.some.inj h
                  split at h2
                  · exact TMCProcess.noConfusion h2
                  · contradiction
  · intro step steppingManager secondaries k track hstep hmanager hlist hcount hk0 htrack
    have hvertex : sm.fStepStatus ≠ TG4StepStatus.kVertex := by
      intro hv
      have : NSecondaries env sm = some 0 := by simp [NSecondaries, hv]
      rw [this] at hcount
      exact hk0 (Option.some.inj hcount).symm
    have hlt : isec < k := by
      unfold trackAt at htrack
      split at htrack
      · rename_i hrange
        have h2 : (((env.ProcessTrackIfGeneralProcess step secondaries).length : Nat) : Int)
            - k + isec < (((env.ProcessTrackIfGeneralProcess step secondaries).length : Nat) : Int) :=
          hrange.2
        linarith
      · exact Option.noConfusion htrack
    have hnot : ¬ (isec ≥ k) := not_le.mpr hlt
    have hcond : ¬ (sm.fStepStatus = TG4StepStatus.kVertex ∨ k = 0) := by
      rintro (h | h)
      · exact hvertex h
      · exact hk0 h
    constructor
    · intro hclass
      unfold ProdProcess
      simp only [hcount, if_neg hcond, hstep, hmanager, hlist, htrack, decide_eq_false hnot,
        Bool.and_false, hclass, if_true]
      rfl
    · intro hclass
      unfold ProdProcess
      simp only [hcount, if_neg hcond, hstep, hmanager, hlist, htrack, decide_eq_false hnot,
        Bool.and_false, if_neg hclass]
      rfl

/-- Witness of C9: the first secondary of the current step of the sample manager was created by
ionisation, which the sample physics manager classifies as `kPEnergyLoss`; `ProdProcess(0)`
reports `kPDeltaRay`. -/
theorem ProdProcess_never_energy_loss_witness :
    ProdProcess sampleStepServices sampleSecondariesManager 0 ≠ some TMCProcess.kPEnergyLoss
    ∧ sampleStepServices.GetMCProcess sampleSecondary1.GetCreatorProcess = TMCProcess.kPEnergyLoss
    ∧ ProdProcess sampleStepServices sampleSecondariesManager 0 = some TMCProcess.kPDeltaRay :=
  ⟨(ProdProcess_never_energy_loss sampleStepServices sampleSecondariesManager 0).1,
    by decide,
    ((ProdProcess_never_energy_loss sampleStepServices sampleSecondariesManager 0).2
      {} sampleSteppingManager [sampleSecondary0, sampleSecondary1, sampleSecondary2] 2
      sampleSecondary1 rfl rfl rfl (by decide) (by decide) rfl).1 (by decide)⟩

/-- The loop over the along-step process vector keeps, in order, the codes of the entries that
are neither null nor a transportation. -/
theorem alongStepCodes_eq_filterMap (env : Services) (processVector : List (Option G4VProcess)) :
    alongStepCodes env processVector
      = processVector.filterMap (fun g4Process =>
          g4Process.bind (fun process =>
            if process.GetProcessSubType = TRANSPORTATION then none
            else some (env.GetMCProcess (some process)))) := by
  induction processVector with
  | nil => rfl
  | cons g4Process rest ih =>
    cases g4Process with
    | none => simp [alongStepCodes, ih]
    | some process =>
      by_cases hsub : process.GetProcessSubType = TRANSPORTATION
      · simp [alongStepCodes, ih, hsub]
      · simp [alongStepCodes, ih, hsub]

/-- C10: in a normal step with a step-defining process, `StepProcesses` assigns the codes of the
along-step processes that are neither null nor a transportation, and then: when the track is an
optical photon, the step-defining process is a transportation and the physics manager reports an
optical-boundary process, `kPLightScattering`, the optical-boundary status code and the code of
the step-defining process, in this order; when one of the three conditions fails, only the code
of the step-defining process. -/
theorem StepProcesses_optical_boundary (env : Services) (sm : TG4StepManager) (step : G4Step)
    (lastProcess : G4VProcess)
    (hstatus : sm.fStepStatus = TG4StepStatus.kNormalStep)
    (hstep : sm.fStep = some step)
    (hmanager : env.MCDEBUG = true → sm.fSteppingManager.isSome = true)
    (hlast : step.GetPostStepPoint.GetProcessDefinedStep = some lastProcess) :
    ((step.GetTrack.GetDefinition = env.OpticalPhotonDefinition
        ∧ lastProcess.GetProcessSubType = TRANSPORTATION
        ∧ env.IsOpBoundaryProcess = true) →
      (StepProcesses env sm).map StepProcessesResult.processes
        = some
          (step.GetTrack.GetDefinition.GetProcessManager.GetAlongStepProcessVector.filterMap
              (fun g4Process =>
                g4Process.bind (fun process =>
                  if process.GetProcessSubType = TRANSPORTATION then none
                  else some (env.GetMCProcess (some process))))
            ++ [TMCProcess.kPLightScattering, env.GetOpBoundaryStatus,
                env.GetMCProcess (some lastProcess)]))
    ∧ (¬ (step.GetTrack.GetDefinition = env.OpticalPhotonDefinition
        ∧ lastProcess.GetProcessSubType = TRANSPORTATION
        ∧ env.IsOpBoundaryProcess = true) →
      (StepProcesses env sm).map StepProcessesResult.processes
        = some
          (step.GetTrack.GetDefinition.GetProcessManager.GetAlongStepProcessVector.filterMap
              (fun g4Process =>
                g4Process.bind (fun process =>
                  if process.GetProcessSubType = TRANSPORTATION then none
                  else some (env.GetMCProcess (some process))))
            ++ [env.GetMCProcess (some lastProcess)])) := by
  have hcheck : ifMCDEBUG env (CheckSteppingManager sm) = some () := by
    cases h : env.MCDEBUG with
    | false => simp [ifMCDEBUG, h]
    | true =>
      have := hmanager h
      simp [ifMCDEBUG, CheckSteppingManager, h, Option.isSome_iff_ne_none.mp this]
  have hregime : ¬ (sm.fStepStatus = TG4StepStatus.kVertex
      ∨ sm.fStepStatus = TG4StepStatus.kBoundary
      ∨ sm.fStepStatus = TG4StepStatus.kGflashSpot) := by
    rw [hstatus]
    decide
  constructor
  · rintro ⟨hphoton, htransport, hboundary⟩
    unfold StepProcesses
    simp only [if_neg hregime, hcheck, hstep, hlast, if_pos hphoton,
      if_pos (And.intro htransport hboundary), Option.map, alongStepCodes_eq_filterMap,
      List.append_assoc, List.cons_append, List.nil_append]
  · intro hnot
    unfold StepProcesses
    simp only [if_neg hregime, hcheck, hstep, hlast]
    by_cases hphoton : step.GetTrack.GetDefinition = env.OpticalPhotonDefinition
    · have hrest : ¬ (lastProcess.GetProcessSubType = TRANSPORTATION
          ∧ env.IsOpBoundaryProcess = true) := fun h => hnot ⟨hphoton, h.1, h.2⟩
      simp only [if_pos hphoton, if_neg hrest, Option.map, alongStepCodes_eq_filterMap]
    · simp only [if_neg hphoton, Option.map, alongStepCodes_eq_filterMap]

/-- Witness of C10: the sample optical photon crossing an optical boundary by transportation
gets absorption (along the step), then light scattering, reflection and transportation; the
sample photon stopped by absorption gets no synthetic codes. -/
theorem StepProcesses_optical_boundary_witness :
    (StepProcesses sampleStepServices sampleOpticalManager).map StepProcessesResult.processes
      = some [TMCProcess.kPLightAbsorption, TMCProcess.kPLightScattering,
          TMCProcess.kPLightReflection, TMCProcess.kPTransportation]
    ∧ (StepProcesses sampleStepServices sampleAbsorbedManager).map StepProcessesResult.processes
      = some [TMCProcess.kPLightAbsorption, TMCProcess.kPLightAbsorption] :=
  ⟨(StepProcesses_optical_boundary sampleStepServices sampleOpticalManager sampleOpticalStep
      sampleTransportation rfl rfl (by decide) rfl).1 (by decide),
    (StepProcesses_optical_boundary sampleStepServices sampleAbsorbedManager sampleAbsorbedStep
      sampleOpAbsorption rfl rfl (by decide) rfl).2 (by decide)⟩

/-! ## Coordinate transforms -/

/-- For a transform with orthonormal rows, `Inverse()` undoes `TransformPoint`. -/
theorem Inverse_TransformPoint_of_orthonormal (t : G4AffineTransform) (h : t.RowsOrthonormal)
    (v : G4ThreeVector) : t.Inverse.TransformPoint (t.TransformPoint v) = v := by
  obtain ⟨hxx, hyy, hzz, hxy, hxz, hyz⟩ := h
  cases v with
  | mk x y z =>
    simp only [G4AffineTransform.Inverse, G4AffineTransform.TransformPoint, G4ThreeVector.mk.injEq]
    refine ⟨?_, ?_, ?_⟩
    · linear_combination x * hxx + y * hxy + z * hxz
    · linear_combination x * hxy + y * hyy + z * hyz
    · linear_combination x * hxz + y * hyz + z * hzz

/-- For a transform with orthonormal rows, `Inverse()` undoes `TransformAxis`. -/
theorem Inverse_TransformAxis_of_orthonormal (t : G4AffineTransform) (h : t.RowsOrthonormal)
    (v : G4ThreeVector) : t.Inverse.TransformAxis (t.TransformAxis v) = v := by
  obtain ⟨hxx, hyy, hzz, hxy, hxz, hyz⟩ := h
  cases v with
  | mk x y z =>
    simp only [G4AffineTransform.Inverse, G4AffineTransform.TransformAxis, G4ThreeVector.mk.injEq]
    refine ⟨?_, ?_, ?_⟩
    · linear_combination x * hxx + y * hxy + z * hxz
    · linear_combination x * hxy + y * hyy + z * hyz
    · linear_combination x * hxz + y * hyz + z * hzz

/-- C11: for a current touchable whose transform is a rotation with translation (orthonormal
rows, so that `Inverse()` inverts it), a length unit other than 0 and every point `p`, `Gmtod`
with flag 1 followed by `Gdtom` with flag 1 gives back `p`, and likewise with flag 2 (direction
cosines, translation ignored); neither call reports a warning.  Exact arithmetic. -/
theorem Gdtom_Gmtod_round_trip (env : Services) (sm : TG4StepManager) (touchable : G4VTouchable)
    (p xd xm : Double3) (iflag : G4int)
    (htouchable : GetCurrentTouchable env sm = some (some touchable))
    (hrows : touchable.GetHistory.GetTopTransform.RowsOrthonormal)
    (hunit : env.Units.Length ≠ 0)
    (hflag : iflag = 1 ∨ iflag = 2) :
    ∃ local3, Gmtod env sm p xd iflag = some (local3, [])
      ∧ Gdtom env sm local3 xm iflag = some (p, []) := by
  have hdebug : ¬ (env.MCDEBUG = true ∧ iflag ≠ 1 ∧ iflag ≠ 2) := by
    rintro ⟨_, h1, h2⟩
    rcases hflag with h | h
    · exact h1 h
    · exact h2 h
  cases p with
  | mk p0 p1 p2 =>
    rcases hflag with h | h
    · subst h
      refine ⟨{ e0 := (touchable.GetHistory.GetTopTransform.TransformPoint
                  { x := p0 * env.Units.Length, y := p1 * env.Units.Length,
                    z := p2 * env.Units.Length }).x / env.Units.Length,
                e1 := (touchable.GetHistory.GetTopTransform.TransformPoint
                  { x := p0 * env.Units.Length, y := p1 * env.Units.Length,
                    z := p2 * env.Units.Length }).y / env.Units.Length,
                e2 := (touchable.GetHistory.GetTopTransform.TransformPoint
                  { x := p0 * env.Units.Length, y := p1 * env.Units.Length,
                    z := p2 * env.Units.Length }).z / env.Units.Length }, ?_, ?_⟩
      · unfold Gmtod
        rw [if_neg hdebug, htouchable]
        simp only [if_true]
      · unfold Gdtom
        rw [if_neg hdebug, htouchable]
        simp only [if_true, div_mul_cancel₀ _ hunit]
        have hinv := Inverse_TransformPoint_of_orthonormal
          touchable.GetHistory.GetTopTransform hrows
          { x := p0 * env.Units.Length, y := p1 * env.Units.Length, z := p2 * env.Units.Length }
        have hpoint : ∀ (a b : G4ThreeVector), a = b →
            (a.x / env.Units.Length = b.x / env.Units.Length
              ∧ a.y / env.Units.Length = b.y / env.Units.Length
              ∧ a.z / env.Units.Length = b.z / env.Units.Length) := by
          intro a b hab
          rw [hab]
          exact ⟨rfl, rfl, rfl⟩
        obtain ⟨hx, hy, hz⟩ := hpoint _ _ hinv
        simp only [Option.some.injEq, Prod.mk.injEq, Double3.mk.injEq, and_true]
        refine ⟨?_, ?_, ?_⟩
        · rw [show (G4AffineTransform.TransformPoint _ _).x / env.Units.Length = _ from hx]
          exact mul_div_cancel_right₀ p0 hunit
        · rw [show (G4AffineTransform.TransformPoint _ _).y / env.Units.Length = _ from hy]
          exact mul_div_cancel_right₀ p1 hunit
        · rw [show (G4AffineTransform.TransformPoint _ _).z / env.Units.Length = _ from hz]
          exact mul_div_cancel_right₀ p2 hunit
    · subst h
      have h21 : ¬ ((2 : G4int) = 1) := by decide
      refine ⟨{ e0 := (touchable.GetHistory.GetTopTransform.TransformAxis
                  { x := p0 * env.Units.Length, y := p1 * env.Units.Length,
                    z := p2 * env.Units.Length }).x / env.Units.Length,
                e1 := (touchable.GetHistory.GetTopTransform.TransformAxis
                  { x := p0 * env.Units.Length, y := p1 * env.Units.Length,
                    z := p2 * env.Units.Length }).y / env.Units.Length,
                e2 := (touchable.GetHistory.GetTopTransform.TransformAxis
                  { x := p0 * env.Units.Length, y := p1 * env.Units.Length,
                    z := p2 * env.Units.Length }).z / env.Units.Length }, ?_, ?_⟩
      · unfold Gmtod
        rw [if_neg hdebug, htouchable]
        simp only [if_neg h21]
      · unfold Gdtom
        rw [if_neg hdebug, htouchable]
        simp only [if_neg h21, div_mul_cancel₀ _ hunit]
        have hinv := Inverse_TransformAxis_of_orthonormal
          touchable.GetHistory.GetTopTransform hrows
          { x := p0 * env.Units.Length, y := p1 * env.Units.Length, z := p2 * env.Units.Length }
        have hpoint : ∀ (a b : G4ThreeVector), a = b →
            (a.x / env.Units.Length = b.x / env.Units.Length
              ∧ a.y / env.Units.Length = b.y / env.Units.Length
              ∧ a.z / env.Units.Length = b.z / env.Units.Length) := by
          intro a b hab
          rw [hab]
          exact ⟨rfl, rfl, rfl⟩
        obtain ⟨hx, hy, hz⟩ := hpoint _ _ hinv
        simp only [Option.some.injEq, Prod.mk.injEq, Double3.mk.injEq, and_true]
        refine ⟨?_, ?_, ?_⟩
        · rw [show (G4AffineTransform.TransformAxis _ _).x / env.Units.Length = _ from hx]
          exact mul_div_cancel_right₀ p0 hunit
        · rw [show (G4AffineTransform.TransformAxis _ _).y / env.Units.Length = _ from hy]
          exact mul_div_cancel_right₀ p1 hunit
        · rw [show (G4AffineTransform.TransformAxis _ _).z / env.Units.Length = _ from hz]
          exact mul_div_cancel_right₀ p2 hunit

/-- Witness of C11: the point (3, 4, 5) through the sample quarter turn with translation, length
unit 10, flag 1. -/
theorem Gdtom_Gmtod_round_trip_witness :
    ∃ local3, Gmtod sampleUnitServices sampleMovingManager { e0 := 3, e1 := 4, e2 := 5 } {} 1
        = some (local3, [])
      ∧ Gdtom sampleUnitServices sampleMovingManager local3 {} 1
        = some ({ e0 := 3, e1 := 4, e2 := 5 }, []) :=
  Gdtom_Gmtod_round_trip sampleUnitServices sampleMovingManager sampleTransformTouchable
    { e0 := 3, e1 := 4, e2 := 5 } {} {} 1 rfl
    (by simp [G4AffineTransform.RowsOrthonormal, sampleTransformTouchable, sampleTransform])
    (by simp [sampleUnitServices]) (Or.inl rfl)

/-! ## Kinematics -/

/-- C12: with an initial VMC track status set, `TrackLength()` is the track length of the engine
divided by the length unit plus the track length of the initial status, and `StepNumber()` is
the current step number of the engine plus the step number of the initial status; with none set
(as after construction) each is the engine value alone, the length divided by the length
unit. -/
theorem TrackLength_StepNumber_initial_status (env : Services) (sm : TG4StepManager)
    (track : G4Track) (status : TMCParticleStatus) (userGeometry : String) :
    TrackLength env (SetInitialVMCTrackStatus { sm with fTrack := some track } (some status))
      = some (track.GetTrackLength / env.Units.Length + status.fTrackLength)
    ∧ StepNumber (SetInitialVMCTrackStatus { sm with fTrack := some track } (some status))
      = some (track.GetCurrentStepNumber + status.fStepNumber)
    ∧ TrackLength env (SetInitialVMCTrackStatus { sm with fTrack := some track } none)
      = some (track.GetTrackLength / env.Units.Length)
    ∧ StepNumber (SetInitialVMCTrackStatus { sm with fTrack := some track } none)
      = some track.GetCurrentStepNumber
    ∧ TrackLength env { create userGeometry with fTrack := some track }
      = some (track.GetTrackLength / env.Units.Length)
    ∧ StepNumber { create userGeometry with fTrack := some track }
      = some track.GetCurrentStepNumber := by
  have hcreate : (create userGeometry).fInitialVMCTrackStatus = none := by
    unfold create
    split <;> split <;> rfl
  refine ⟨?_, ?_, ?_, ?_, ?_, ?_⟩
  · cases h : env.MCDEBUG <;>
      simp [TrackLength, SetInitialVMCTrackStatus, ifMCDEBUG, CheckTrack, h]
  · simp [StepNumber, SetInitialVMCTrackStatus]
  · cases h : env.MCDEBUG <;>
      simp [TrackLength, SetInitialVMCTrackStatus, ifMCDEBUG, CheckTrack, h]
  · simp [StepNumber, SetInitialVMCTrackStatus]
  · cases h : env.MCDEBUG <;>
      simp [TrackLength, ifMCDEBUG, CheckTrack, h, hcreate]
  · simp [StepNumber, hcreate]

/-- C13: with status `kGflashSpot` both overloads of `TrackPosition` report the position of the
spot's energy spot divided by the length unit, with every other status the position of the track
divided by the length unit; the time component of the `TLorentzVector` overload is the global
time of the track divided by the time unit; the two overloads report the same spatial
components. -/
theorem TrackPosition_regime_source (env : Services) (sm : TG4StepManager) (track : G4Track)
    (spot : G4GFlashSpot) (energySpot : GFlashEnergySpot) (status : TG4StepStatus)
    (hstatus : status ≠ TG4StepStatus.kGflashSpot) :
    (TrackPosition env
        { sm with fStepStatus := TG4StepStatus.kGflashSpot, fTrack := some track,
                  fGflashSpot := some { spot with GetEnergySpot := some energySpot } }
        = some { c0 := energySpot.GetPosition.x / env.Units.Length,
                 c1 := energySpot.GetPosition.y / env.Units.Length,
                 c2 := energySpot.GetPosition.z / env.Units.Length,
                 c3 := track.GetGlobalTime / env.Units.Time }
      ∧ TrackPositionXYZ env
        { sm with fStepStatus := TG4StepStatus.kGflashSpot, fTrack := some track,
                  fGflashSpot := some { spot with GetEnergySpot := some energySpot } }
        = some (energySpot.GetPosition.x / env.Units.Length,
                energySpot.GetPosition.y / env.Units.Length,
                energySpot.GetPosition.z / env.Units.Length))
    ∧ (TrackPosition env { sm with fStepStatus := status, fTrack := some track }
        = some { c0 := track.GetPosition.x / env.Units.Length,
                 c1 := track.GetPosition.y / env.Units.Length,
                 c2 := track.GetPosition.z / env.Units.Length,
                 c3 := track.GetGlobalTime / env.Units.Time }
      ∧ TrackPositionXYZ env { sm with fStepStatus := status, fTrack := some track }
        = some (track.GetPosition.x / env.Units.Length,
                track.GetPosition.y / env.Units.Length,
                track.GetPosition.z / env.Units.Length)) := by
  refine ⟨⟨?_, ?_⟩, ?_, ?_⟩
  · cases h : env.MCDEBUG <;>
      simp [TrackPosition, ifMCDEBUG, CheckTrack, h, SetTLorentzVector, G4ThreeVector.scale,
        div_eq_mul_inv]
  · cases h : env.MCDEBUG <;>
      simp [TrackPositionXYZ, ifMCDEBUG, CheckTrack, h, G4ThreeVector.scale, div_eq_mul_inv]
  · cases h : env.MCDEBUG <;>
      simp [TrackPosition, ifMCDEBUG, CheckTrack, h, hstatus, SetTLorentzVector,
        G4ThreeVector.scale, div_eq_mul_inv]
  · cases h : env.MCDEBUG <;>
      simp [TrackPositionXYZ, ifMCDEBUG, CheckTrack, h, hstatus, G4ThreeVector.scale,
        div_eq_mul_inv]

/-- Witness of C13: the sample track at a boundary and the sample spot, length unit 10 and time
unit 2. -/
theorem TrackPosition_regime_source_witness :
    (TrackPosition sampleUnitServices
        { sampleMovingManager with
          fStepStatus := TG4StepStatus.kGflashSpot,
          fTrack := some sampleMovingTrack,
          fGflashSpot := some { sampleSpot with
            GetEnergySpot := some { GetPosition := { x := 70, y := 80, z := 90 } } } }
        = some { c0 := (70 : G4double) / 10, c1 := (80 : G4double) / 10,
                 c2 := (90 : G4double) / 10, c3 := (6 : G4double) / 2 }
      ∧ TrackPositionXYZ sampleUnitServices
        { sampleMovingManager with
          fStepStatus := TG4StepStatus.kGflashSpot,
          fTrack := some sampleMovingTrack,
          fGflashSpot := some { sampleSpot with
            GetEnergySpot := some { GetPosition := { x := 70, y := 80, z := 90 } } } }
        = some ((70 : G4double) / 10, (80 : G4double) / 10, (90 : G4double) / 10))
    ∧ (TrackPosition sampleUnitServices
        { sampleMovingManager with
          fStepStatus := TG4StepStatus.kBoundary,
          fTrack := some sampleMovingTrack }
        = some { c0 := (30 : G4double) / 10, c1 := (40 : G4double) / 10,
                 c2 := (50 : G4double) / 10, c3 := (6 : G4double) / 2 }
      ∧ TrackPositionXYZ sampleUnitServices
        { sampleMovingManager with
          fStepStatus := TG4StepStatus.kBoundary,
          fTrack := some sampleMovingTrack }
        = some ((30 : G4double) / 10, (40 : G4double) / 10, (50 : G4double) / 10)) :=
  TrackPosition_regime_source sampleUnitServices sampleMovingManager sampleMovingTrack sampleSpot
    { GetPosition := { x := 70, y := 80, z := 90 } } TG4StepStatus.kBoundary (by decide)

/-- C14: when the navigator reports the local exit normal as invalid, `CurrentBoundaryNormal`
returns false and leaves `x`, `y` and `z` as they were; when it reports it as valid, the function
returns true and sets `x`, `y`, `z` to the local normal carried to the global frame by
`TransformAxis` of the navigator's local-to-global transform (no translation). -/
theorem CurrentBoundaryNormal_valid_or_unchanged (env : Services) (normal : G4ThreeVector)
    (transform : G4AffineTransform) (x y z : G4double) :
    CurrentBoundaryNormal
        { env with NavigatorForTracking :=
            { GetLocalExitNormal := (normal, false), GetLocalToGlobalTransform := transform } }
        x y z
      = (false, x, y, z)
    ∧ CurrentBoundaryNormal
        { env with NavigatorForTracking :=
            { GetLocalExitNormal := (normal, true), GetLocalToGlobalTransform := transform } }
        x y z
      = (true,
          normal.x * transform.rxx + normal.y * transform.ryx + normal.z * transform.rzx,
          normal.x * transform.rxy + normal.y * transform.ryy + normal.z * transform.rzy,
          normal.x * transform.rxz + normal.y * transform.ryz + normal.z * transform.rzz)
    ∧ (transform.TransformAxis normal).x
      = (transform.TransformPoint normal).x - transform.tx
    ∧ (transform.TransformAxis normal).y
      = (transform.TransformPoint normal).y - transform.ty
    ∧ (transform.TransformAxis normal).z
      = (transform.TransformPoint normal).z - transform.tz := by
  refine ⟨?_, ?_, ?_, ?_, ?_⟩
  · simp [CurrentBoundaryNormal]
  · simp [CurrentBoundaryNormal, G4AffineTransform.TransformAxis]
  · simp [G4AffineTransform.TransformAxis, G4AffineTransform.TransformPoint]
  · simp [G4AffineTransform.TransformAxis, G4AffineTransform.TransformPoint]
  · simp [G4AffineTransform.TransformAxis, G4AffineTransform.TransformPoint]

/-! ## Track control -/

/-- C15: the effects of `StopRun()` begin with setting the run-is-stopping flag to true, and end
with the command "/event/abort" followed by the command "/run/abort"; no command is issued
before "/event/abort", and whatever the flag was before the call, it is true after the effects
that precede "/event/abort". -/
theorem StopRun_flag_before_aborts (sm : TG4StepManager) :
    ∃ before,
      (StopRun sm).2
        = before ++ [Effect.ApplyCommand "/event/abort", Effect.ApplyCommand "/run/abort"]
      ∧ before.head? = some (Effect.SetIsStopRun true)
      ∧ (∀ command, Effect.ApplyCommand command ∉ before)
      ∧ (∀ flag, isStopRunAfter flag before = true) := by
  cases htrack : sm.fTrack with
  | none =>
    refine ⟨[Effect.SetIsStopRun true], ?_, rfl, ?_, ?_⟩
    · simp [StopRun, StopEvent, htrack]
    · intro command
      simp
    · intro flag
      rfl
  | some track =>
    refine ⟨[Effect.SetIsStopRun true,
      Effect.SetTrackStatus G4TrackStatus.fKillTrackAndSecondaries], ?_, rfl, ?_, ?_⟩
    · simp [StopRun, StopEvent, htrack]
    · intro command
      simp
    · intro flag
      rfl

/-- Counterexample to C16 as stated: `StopTrack()` on the sample track sets the track status to
`fStopAndKill`, not to `fStopButAlive`. -/
theorem StopTrack_status_counterexample :
    sampleMovingManager.fTrack.map G4Track.GetTrackStatus = some G4TrackStatus.fAlive
    ∧ (StopTrack sampleMovingManager).1.fTrack.map G4Track.GetTrackStatus
      = some G4TrackStatus.fStopAndKill
    ∧ (StopTrack sampleMovingManager).1.fTrack.map G4Track.GetTrackStatus
      ≠ some G4TrackStatus.fStopButAlive := by
  decide

/-- C16 (amended): when a current track exists, `StopTrack()` sets its status to `fStopAndKill`:
the track is killed, and at-rest processes are not invoked (that would be `fStopButAlive`);
nothing else changes and no warning is reported. -/
theorem StopTrack_sets_stop_and_kill (sm : TG4StepManager) (track : G4Track) :
    StopTrack { sm with fTrack := some track }
      = ({ sm with fTrack := some { track with GetTrackStatus := G4TrackStatus.fStopAndKill } },
          [Effect.SetTrackStatus G4TrackStatus.fStopAndKill])
    ∧ G4TrackStatus.fStopAndKill ≠ G4TrackStatus.fStopButAlive := by
  refine ⟨rfl, ?_⟩
  decide

/-- C17: with a current track, `StopEvent()` sets the status of that track to
`fKillTrackAndSecondaries` and then issues "/event/abort"; with no current track it issues
"/event/abort" alone and leaves the state as it is. -/
theorem StopEvent_kills_then_aborts (sm : TG4StepManager) (track : G4Track) :
    StopEvent { sm with fTrack := some track }
      = ({ sm with
           fTrack := some { track with
             GetTrackStatus := G4TrackStatus.fKillTrackAndSecondaries } },
          [Effect.SetTrackStatus G4TrackStatus.fKillTrackAndSecondaries,
           Effect.ApplyCommand "/event/abort"])
    ∧ StopEvent { sm with fTrack := none }
      = ({ sm with fTrack := none }, [Effect.ApplyCommand "/event/abort"]) :=
  ⟨rfl, rfl⟩

/-- C18: with a current track that has an information record (and a track manager to reach
it), `InterruptTrack()` sets the track status to `fStopAndKill` and the interrupt flag of the
record to true, while `StopTrack()` on the same track sets the same status and leaves the record
as it was; the records after the two calls agree only when the track was interrupted before. -/
theorem InterruptTrack_sets_flag (sm : TG4StepManager) (track : G4Track)
    (trackInformation : TG4TrackInformation) (trackManager : TG4TrackManager) :
    InterruptTrack
        { sm with fTrack := some { track with GetUserInformation := some trackInformation },
                  fTrackManager := some trackManager }
      = some
          ({ sm with
             fTrack := some { track with
               GetTrackStatus := G4TrackStatus.fStopAndKill,
               GetUserInformation := some { trackInformation with IsInterrupt := true } },
             fTrackManager := some trackManager },
            [Effect.SetTrackStatus G4TrackStatus.fStopAndKill, Effect.SetInterrupt true])
    ∧ StopTrack
        { sm with fTrack := some { track with GetUserInformation := some trackInformation },
                  fTrackManager := some trackManager }
      = ({ sm with
           fTrack := some { track with
             GetTrackStatus := G4TrackStatus.fStopAndKill,
             GetUserInformation := some trackInformation },
           fTrackManager := some trackManager },
          [Effect.SetTrackStatus G4TrackStatus.fStopAndKill])
    ∧ ({ trackInformation with IsInterrupt := true } : TG4TrackInformation).IsInterrupt = true
    ∧ ((({ trackInformation with IsInterrupt := true } : TG4TrackInformation)
          = trackInformation) ↔ trackInformation.IsInterrupt = true) := by
  refine ⟨rfl, rfl, rfl, ?_⟩
  constructor
  · intro heq
    have hflag := congrArg TG4TrackInformation.IsInterrupt heq
    exact hflag.symm
  · intro hflag
    cases trackInformation with
    | mk flag =>
      cases hflag
      rfl

/-- C19: with no current track, `StopTrack()` and `InterruptTrack()` each return normally, leave
the state of the step manager as it is, and have one warning as their only effect. -/
theorem StopTrack_InterruptTrack_without_track (sm : TG4StepManager) :
    StopTrack { sm with fTrack := none }
      = ({ sm with fTrack := none },
          [Effect.ReportWarning
            { className := "TG4StepManager", method := "StopTrack()",
              text := "There is no current track to be stopped." }])
    ∧ InterruptTrack { sm with fTrack := none }
      = some ({ sm with fTrack := none },
          [Effect.ReportWarning
            { className := "TG4StepManager", method := "InterruptTrack()",
              text := "There is no current track to be interrupted." }]) :=
  ⟨rfl, rfl⟩

/-! ## Step limits -/

/-- C20: `SetMaxStepBack()` with no limits recorded as modified on the fly reports one warning
and changes neither the state nor any limits.  After a `SetMaxStep(step)` that found the limits
at address `limits` for the current volume, these limits allow `step` times the length unit, the
other limits are untouched, and the address is recorded; `SetMaxStepBack()` then puts back the
limit that was in force before on these same limits, touches no other limits, reports nothing
and clears the record, so that a second `SetMaxStepBack()` only warns. -/
theorem SetMaxStepBack_restores_previous (env : Services) (sm : TG4StepManager)
    (store : LimitsStore) (limits : LimitsAddress) (step : G4double) (warnings : List Warning)
    (hfound : GetCurrentLimits env sm = some (some limits, warnings)) :
    SetMaxStepBack { sm with fLimitsModifiedOnFly := none } store
      = ({ sm with fLimitsModifiedOnFly := none }, store,
          [{ className := "TG4StepManager", method := "SetMaxStepBack",
             text := "No limits modified on fly found." }])
    ∧ ∃ sm1 store1,
        SetMaxStep env sm store step = some (sm1, store1, warnings)
        ∧ sm1.fLimitsModifiedOnFly = some limits
        ∧ (store1 limits).maxAllowedStep = step * env.Units.Length
        ∧ (∀ other, other ≠ limits → store1 other = store other)
        ∧ ∃ sm2 store2,
            SetMaxStepBack sm1 store1 = (sm2, store2, [])
            ∧ sm2.fLimitsModifiedOnFly = none
            ∧ (store2 limits).maxAllowedStep = (store limits).maxAllowedStep
            ∧ (∀ other, other ≠ limits → store2 other = store other)
            ∧ SetMaxStepBack sm2 store2
              = (sm2, store2,
                  [{ className := "TG4StepManager", method := "SetMaxStepBack",
                     text := "No limits modified on fly found." }]) := by
  refine ⟨rfl, { sm with fLimitsModifiedOnFly := some limits },
    Function.update store limits
      ((store limits).SetCurrentMaxAllowedStep (step * env.Units.Length)),
    ?_, rfl, ?_, ?_,
    { sm with fLimitsModifiedOnFly := none },
    Function.update
      (Function.update store limits
        ((store limits).SetCurrentMaxAllowedStep (step * env.Units.Length)))
      limits
      (Function.update store limits
        ((store limits).SetCurrentMaxAllowedStep (step * env.Units.Length))
        limits).SetMaxAllowedStepBack,
    rfl, rfl, ?_, ?_, rfl⟩
  · unfold SetMaxStep
    rw [hfound]
  · simp [TG4Limits.SetCurrentMaxAllowedStep]
  · intro other hother
    simp [Function.update, hother]
  · simp [TG4Limits.SetCurrentMaxAllowedStep, TG4Limits.SetMaxAllowedStepBack]
  · intro other hother
    simp [Function.update, hother]

/-- Witness of C20: the sample track in the volume whose limits are at address 4, a step of 3
with length unit 10. -/
theorem SetMaxStepBack_restores_previous_witness :
    SetMaxStepBack { sampleLimitedManager with fLimitsModifiedOnFly := none } sampleStore
      = ({ sampleLimitedManager with fLimitsModifiedOnFly := none }, sampleStore,
          [{ className := "TG4StepManager", method := "SetMaxStepBack",
             text := "No limits modified on fly found." }])
    ∧ ∃ sm1 store1,
        SetMaxStep sampleUnitServices sampleLimitedManager sampleStore 3
          = some (sm1, store1, [])
        ∧ sm1.fLimitsModifiedOnFly = some 4
        ∧ (store1 4).maxAllowedStep = 3 * sampleUnitServices.Units.Length
        ∧ (∀ other, other ≠ 4 → store1 other = sampleStore other)
        ∧ ∃ sm2 store2,
            SetMaxStepBack sm1 store1 = (sm2, store2, [])
            ∧ sm2.fLimitsModifiedOnFly = none
            ∧ (store2 4).maxAllowedStep = (sampleStore 4).maxAllowedStep
            ∧ (∀ other, other ≠ 4 → store2 other = sampleStore other)
            ∧ SetMaxStepBack sm2 store2
              = (sm2, store2,
                  [{ className := "TG4StepManager", method := "SetMaxStepBack",
                     text := "No limits modified on fly found." }]) :=
  SetMaxStepBack_restores_previous sampleUnitServices sampleLimitedManager sampleStore 4 3 []
    (by decide)

/-! ## Construction -/

/-- C21: constructing a step manager while an instance is registered raises the exception and
leaves the registered instance as it is; after the destructor of the existing instance has run,
construction succeeds and registers the new instance. -/
theorem construct_singleton (existing self : InstanceAddress) (userGeometry : String) :
    construct { fgInstance := some existing } self userGeometry
      = (none, { fgInstance := some existing })
    ∧ construct (destruct { fgInstance := some existing }) self userGeometry
      = (some (create userGeometry), { fgInstance := some self }) :=
  ⟨rfl, rfl⟩

/-- C22: the constructor sets `fCopyNoOffset` to 1 for "VMCtoGeant4" and to 0 otherwise, and
`fDivisionCopyNoOffset` to 1 for "RootToGeant4" or "Geant4" and to 0 otherwise; and the
operations on the step manager (late initialisation, track control, step-limit changes,
`SetInitialVMCTrackStatus`, and `CurrentVolPath`, which writes the name buffer) leave both
offsets as they are. -/
theorem copyNoOffsets_fixed (env : Services) (sm : TG4StepManager) (userGeometry : String)
    (store : LimitsStore) (step : G4double) (status : Option TMCParticleStatus) :
    copyNoOffsets (create userGeometry)
      = (if userGeometry = "VMCtoGeant4" then 1 else 0,
         if userGeometry = "RootToGeant4" ∨ userGeometry = "Geant4" then 1 else 0)
    ∧ copyNoOffsets (LateInitialize env sm) = copyNoOffsets sm
    ∧ copyNoOffsets (StopTrack sm).1 = copyNoOffsets sm
    ∧ (InterruptTrack sm).map (fun r => copyNoOffsets r.1)
      = (InterruptTrack sm).map (fun _ => copyNoOffsets sm)
    ∧ copyNoOffsets (StopEvent sm).1 = copyNoOffsets sm
    ∧ copyNoOffsets (StopRun sm).1 = copyNoOffsets sm
    ∧ (SetMaxStep env sm store step).map (fun r => copyNoOffsets r.1)
      = (SetMaxStep env sm store step).map (fun _ => copyNoOffsets sm)
    ∧ copyNoOffsets (SetMaxStepBack sm store).1 = copyNoOffsets sm
    ∧ copyNoOffsets (SetInitialVMCTrackStatus sm status) = copyNoOffsets sm
    ∧ (CurrentVolPath env sm).map (fun r => copyNoOffsets r.1)
      = (CurrentVolPath env sm).map (fun _ => copyNoOffsets sm) := by
  refine ⟨?_, rfl, ?_, ?_, ?_, ?_, ?_, ?_, rfl, ?_⟩
  · unfold create copyNoOffsets
    by_cases h1 : userGeometry = "VMCtoGeant4" <;>
      by_cases h2 : userGeometry = "RootToGeant4" ∨ userGeometry = "Geant4" <;>
      simp [h1, h2]
  · unfold StopTrack
    cases sm.fTrack <;> rfl
  · unfold InterruptTrack
    cases htrack : sm.fTrack with
    | none => rfl
    | some track =>
      cases hmanager : sm.fTrackManager with
      | none => rfl
      | some trackManager =>
        simp only []
        cases hinfo : trackManager.GetTrackInformation
            { track with GetTrackStatus := G4TrackStatus.fStopAndKill } with
        | none => rfl
        | some trackInformation => rfl
  · unfold StopEvent
    cases sm.fTrack <;> rfl
  · unfold StopRun StopEvent
    cases sm.fTrack <;> rfl
  · unfold SetMaxStep
    cases hlimits : GetCurrentLimits env sm with
    | none => rfl
    | some found =>
      obtain ⟨userLimits, warnings⟩ := found
      cases userLimits <;> rfl
  · unfold SetMaxStepBack
    cases sm.fLimitsModifiedOnFly <;> rfl
  · unfold CurrentVolPath
    cases htouch : GetCurrentTouchable env sm with
    | none => rfl
    | some pointer =>
      cases pointer with
      | none => rfl
      | some touchable =>
        simp only []
        cases hloop : CurrentVolPathLevels env touchable.GetHistory
            (List.range touchable.GetHistoryDepth.toNat) "" with
        | none => rfl
        | some buffer =>
          simp only []
          cases hvolume : GetCurrentPhysicalVolume env sm with
          | none => rfl
          | some volume => cases volume <;> rfl

/-! ## Volume path -/

/-- The loop of `CurrentVolPath` over levels whose volumes are known appends the segments of
these volumes, in order. -/
theorem CurrentVolPathLevels_segments (env : Services) (history : G4NavigationHistory)
    (indices : List Nat) (volumes : List G4VPhysicalVolume) (buffer : String)
    (hlevels : List.Forall₂ (fun (i : Nat) (volume : G4VPhysicalVolume) =>
        history.GetVolume (i : G4int) = some volume)
      indices volumes) :
    CurrentVolPathLevels env history indices buffer
      = some (volumes.foldl (fun path volume => path ++ specPathSegment env volume) buffer) := by
  induction hlevels generalizing buffer with
  | nil => rfl
  | cons hhead _ ih =>
    simp only [CurrentVolPathLevels, hhead, List.foldl_cons]
    rw [ih]
    simp only [specPathSegment, AppendNumberToString, String.append_assoc]

/-- The first `n` levels of a history whose volumes are the entries of a list. -/
theorem forall₂_range_of_levels (history : G4NavigationHistory)
    (volumes : List G4VPhysicalVolume)
    (hvolumes : ∀ i : Nat, i < volumes.length →
      history.GetVolume (i : G4int) = volumes.get? i) :
    List.Forall₂ (fun (i : Nat) (volume : G4VPhysicalVolume) =>
        history.GetVolume (i : G4int) = some volume)
      (List.range volumes.length) volumes := by
  rw [List.forall₂_iff_get]
  refine ⟨List.length_range _, ?_⟩
  intro i h1 h2
  have hi : (List.range volumes.length).get ⟨i, h1⟩ = i := by simp
  rw [hi, hvolumes i h2]
  exact List.get?_eq_get h2

/-- C23: when the current touchable has history depth `d`, the history volumes at levels
`0, ..., d - 1` are `volumes` (root first) and the current physical volume is `current`,
`CurrentVolPath()` returns, and leaves in the name buffer, the concatenation of the segments
"/" + user name + "_" + copy number of the history volumes in root-to-leaf order followed by
the segment of the current volume: `d + 1` segments, the last one that of the current volume. -/
theorem CurrentVolPath_segments (env : Services) (sm : TG4StepManager)
    (touchable : G4VTouchable) (volumes : List G4VPhysicalVolume) (current : G4VPhysicalVolume)
    (htouchable : GetCurrentTouchable env sm = some (some touchable))
    (hdepth : touchable.GetHistoryDepth = (volumes.length : G4int))
    (hvolumes : ∀ i : Nat, i < volumes.length →
      touchable.GetHistory.GetVolume (i : G4int) = volumes.get? i)
    (hcurrent : GetCurrentPhysicalVolume env sm = some (some current)) :
    CurrentVolPath env sm
      = some ({ sm with
                fNameBuffer := String.join ((volumes ++ [current]).map (specPathSegment env)) },
          String.join ((volumes ++ [current]).map (specPathSegment env)))
    ∧ ((volumes ++ [current]).map (specPathSegment env)).length
      = touchable.GetHistoryDepth.toNat + 1
    ∧ ((volumes ++ [current]).map (specPathSegment env)).getLast?
      = some ("/" ++ env.UserVolumeName current.GetName ++ "_" ++ toString current.GetCopyNo) := by
  have hnat : touchable.GetHistoryDepth.toNat = volumes.length := by
    rw [hdepth]
    exact Int.toNat_natCast _
  have hloop := CurrentVolPathLevels_segments env touchable.GetHistory
    (List.range volumes.length) volumes "" (forall₂_range_of_levels _ volumes hvolumes)
  have hpath : String.join ((volumes ++ [current]).map (specPathSegment env))
      = volumes.foldl (fun path volume => path ++ specPathSegment env volume) ""
        ++ specPathSegment env current := by
    unfold String.join
    rw [List.map_append, List.map_singleton, List.foldl_append, List.foldl_map]
    rfl
  refine ⟨?_, ?_, ?_⟩
  · unfold CurrentVolPath
    rw [htouchable]
    simp only [hnat, hloop, hcurrent, hpath, specPathSegment, AppendNumberToString,
      String.append_assoc]
  · simp [hnat]
  · simp [specPathSegment]

/-- Witness of C23: the sample track in the replicated layer below the world, history depth 1,
has the path "/WRLD_0/LAYE_0". -/
theorem CurrentVolPath_segments_witness :
    CurrentVolPath sampleServices sampleVMCManager
      = some ({ sampleVMCManager with
                fNameBuffer :=
                  String.join (([sampleWorld] ++ [sampleLayer]).map
                    (specPathSegment sampleServices)) },
          String.join (([sampleWorld] ++ [sampleLayer]).map (specPathSegment sampleServices)))
    ∧ (([sampleWorld] ++ [sampleLayer]).map (specPathSegment sampleServices)).length
      = (G4TouchableHistory [sampleWorld, sampleLayer]).GetHistoryDepth.toNat + 1
    ∧ (([sampleWorld] ++ [sampleLayer]).map (specPathSegment sampleServices)).getLast?
      = some ("/" ++ sampleServices.UserVolumeName sampleLayer.GetName ++ "_"
          ++ toString sampleLayer.GetCopyNo) :=
  CurrentVolPath_segments sampleServices sampleVMCManager
    (G4TouchableHistory [sampleWorld, sampleLayer]) [sampleWorld] sampleLayer rfl (by decide)
    (by
      intro i hi
      have h0 : i = 0 := by simpa using hi
      subst h0
      rfl)
    (by decide)

/-! ## Step regimes and track status -/

/-- The loop over the along-step process vector assigns at most one code per entry, and fewer
when an entry is null or a transportation. -/
theorem alongStepCodes_length (env : Services) (processVector : List (Option G4VProcess)) :
    (alongStepCodes env processVector).length ≤ processVector.length
    ∧ ((∃ entry ∈ processVector, entry = none
          ∨ ∃ process, entry = some process ∧ process.GetProcessSubType = TRANSPORTATION) →
        (alongStepCodes env processVector).length + 1 ≤ processVector.length) := by
  induction processVector with
  | nil => simp [alongStepCodes]
  | cons g4Process rest ih =>
    obtain ⟨hle, hskip⟩ := ih
    cases g4Process with
    | none =>
      simp only [alongStepCodes, List.length_cons]
      exact ⟨Nat.le_succ_of_le hle, fun _ => Nat.succ_le_succ hle⟩
    | some process =>
      by_cases hsub : process.GetProcessSubType = TRANSPORTATION
      · simp only [alongStepCodes, hsub, ne_eq, not_true_eq_false, if_false, List.length_cons]
        exact ⟨Nat.le_succ_of_le hle, fun _ => Nat.succ_le_succ hle⟩
      · simp only [alongStepCodes, ne_eq, hsub, not_false_eq_true, if_true, List.length_cons]
        refine ⟨Nat.succ_le_succ hle, ?_⟩
        rintro ⟨entry, hmem, hentry⟩
        rcases List.mem_cons.mp hmem with hhead | htail
        · subst hhead
          rcases hentry with h | ⟨p, hp, hps⟩
          · exact Option.noConfusion h
          · cases hp
            exact absurd hps hsub
        · exact Nat.succ_le_succ (hskip ⟨entry, htail, hentry⟩)

/-- C24: in every normal step, `StepProcesses` gives the array the size `nofAlongStep + 2`,
`nofAlongStep` being the number of entries of the along-step process vector of the particle, and
returns the number of codes it assigned; this number is at most `nofAlongStep + 2`, so that
every code is assigned inside the array.  A normal step is a step made by the engine: it has a
step-defining process, which the engine selects among the processes of the particle, so that a
transportation that defines the step is an entry of the along-step process vector (`hengine`;
this entry is the "- 1 (transportations)" of the size comment in the source). -/
theorem StepProcesses_count_within_size (env : Services) (sm : TG4StepManager) (step : G4Step)
    (lastProcess : G4VProcess)
    (hstatus : sm.fStepStatus = TG4StepStatus.kNormalStep)
    (hstep : sm.fStep = some step)
    (hmanager : env.MCDEBUG = true → sm.fSteppingManager.isSome = true)
    (hlast : step.GetPostStepPoint.GetProcessDefinedStep = some lastProcess)
    (hengine : lastProcess.GetProcessSubType = TRANSPORTATION →
      some lastProcess
        ∈ step.GetTrack.GetDefinition.GetProcessManager.GetAlongStepProcessVector) :
    ∃ result, StepProcesses env sm = some result
      ∧ result.size
        = (step.GetTrack.GetDefinition.GetProcessManager.GetAlongStepProcessVector.length : G4int)
          + 2
      ∧ result.count = (result.processes.length : G4int)
      ∧ result.count ≤ result.size := by
  have hcheck : ifMCDEBUG env (CheckSteppingManager sm) = some () := by
    cases h : env.MCDEBUG with
    | false => simp [ifMCDEBUG, h]
    | true =>
      have := hmanager h
      simp [ifMCDEBUG, CheckSteppingManager, h, Option.isSome_iff_ne_none.mp this]
  have hregime : ¬ (sm.fStepStatus = TG4StepStatus.kVertex
      ∨ sm.fStepStatus = TG4StepStatus.kBoundary
      ∨ sm.fStepStatus = TG4StepStatus.kGflashSpot) := by
    rw [hstatus]
    decide
  obtain ⟨hle, hskip⟩ := alongStepCodes_length env
    step.GetTrack.GetDefinition.GetProcessManager.GetAlongStepProcessVector
  have hfits :
      (∃ entry ∈ step.GetTrack.GetDefinition.GetProcessManager.GetAlongStepProcessVector,
        entry = none
          ∨ ∃ process, entry = some process ∧ process.GetProcessSubType = TRANSPORTATION)
      ∨ ¬ (step.GetTrack.GetDefinition = env.OpticalPhotonDefinition
        ∧ lastProcess.GetProcessSubType = TRANSPORTATION
        ∧ env.IsOpBoundaryProcess = true) := by
    by_cases htransport : lastProcess.GetProcessSubType = TRANSPORTATION
    · exact Or.inl ⟨some lastProcess, hengine htransport,
        Or.inr ⟨lastProcess, rfl, htransport⟩⟩
    · exact Or.inr (fun h => htransport h.2.1)
  by_cases hbranch : step.GetTrack.GetDefinition = env.OpticalPhotonDefinition
      ∧ lastProcess.GetProcessSubType = TRANSPORTATION ∧ env.IsOpBoundaryProcess = true
  · have hentry := hfits.resolve_right (not_not.mpr hbranch)
    have hlen := hskip hentry
    refine ⟨StepProcessesResult.mk
        ((step.GetTrack.GetDefinition.GetProcessManager.GetAlongStepProcessVector.length : G4int) + 2)
        (alongStepCodes env step.GetTrack.GetDefinition.GetProcessManager.GetAlongStepProcessVector
          ++ [TMCProcess.kPLightScattering, env.GetOpBoundaryStatus]
            ++ [env.GetMCProcess (some lastProcess)])
        ((alongStepCodes env step.GetTrack.GetDefinition.GetProcessManager.GetAlongStepProcessVector
          ++ [TMCProcess.kPLightScattering, env.GetOpBoundaryStatus]
            ++ [env.GetMCProcess (some lastProcess)]).length : G4int),
      ?_, rfl, rfl, ?_⟩
    · unfold StepProcesses
      simp only [if_neg hregime, hcheck, hstep, hlast, if_pos hbranch.1,
        if_pos (And.intro hbranch.2.1 hbranch.2.2)]
    · have hnat : (alongStepCodes env step.GetTrack.GetDefinition.GetProcessManager.GetAlongStepProcessVector
            ++ [TMCProcess.kPLightScattering, env.GetOpBoundaryStatus]
            ++ [env.GetMCProcess (some lastProcess)]).length
          ≤ step.GetTrack.GetDefinition.GetProcessManager.GetAlongStepProcessVector.length + 2 := by
        simp only [List.length_append, List.length_cons, List.length_nil]
        omega
      show ((_ : Nat) : Int) ≤ ((_ : Nat) : Int) + 2
      exact_mod_cast hnat
  · by_cases hphoton : step.GetTrack.GetDefinition = env.OpticalPhotonDefinition
    · have hrest : ¬ (lastProcess.GetProcessSubType = TRANSPORTATION
          ∧ env.IsOpBoundaryProcess = true) := fun h => hbranch ⟨hphoton, h.1, h.2⟩
      refine ⟨StepProcessesResult.mk
        ((step.GetTrack.GetDefinition.GetProcessManager.GetAlongStepProcessVector.length : G4int) + 2)
        (alongStepCodes env step.GetTrack.GetDefinition.GetProcessManager.GetAlongStepProcessVector
          ++ [env.GetMCProcess (some lastProcess)])
        ((alongStepCodes env step.GetTrack.GetDefinition.GetProcessManager.GetAlongStepProcessVector
          ++ [env.GetMCProcess (some lastProcess)]).length : G4int),
      ?_, rfl, rfl, ?_⟩
      · unfold StepProcesses
        simp only [if_neg hregime, hcheck, hstep, hlast, if_pos hphoton, if_neg hrest]
      · have hnat : (alongStepCodes env step.GetTrack.GetDefinition.GetProcessManager.GetAlongStepProcessVector
              ++ [env.GetMCProcess (some lastProcess)]).length
            ≤ step.GetTrack.GetDefinition.GetProcessManager.GetAlongStepProcessVector.length + 2 := by
          simp only [List.length_append, List.length_cons, List.length_nil]
          omega
        show ((_ : Nat) : Int) ≤ ((_ : Nat) : Int) + 2
        exact_mod_cast hnat
    · refine ⟨StepProcessesResult.mk
        ((step.GetTrack.GetDefinition.GetProcessManager.GetAlongStepProcessVector.length : G4int) + 2)
        (alongStepCodes env step.GetTrack.GetDefinition.GetProcessManager.GetAlongStepProcessVector
          ++ [env.GetMCProcess (some lastProcess)])
        ((alongStepCodes env step.GetTrack.GetDefinition.GetProcessManager.GetAlongStepProcessVector
          ++ [env.GetMCProcess (some lastProcess)]).length : G4int),
      ?_, rfl, rfl, ?_⟩
      · unfold StepProcesses
        simp only [if_neg hregime, hcheck, hstep, hlast, if_neg hphoton]
      · have hnat : (alongStepCodes env step.GetTrack.GetDefinition.GetProcessManager.GetAlongStepProcessVector
              ++ [env.GetMCProcess (some lastProcess)]).length
            ≤ step.GetTrack.GetDefinition.GetProcessManager.GetAlongStepProcessVector.length + 2 := by
          simp only [List.length_append, List.length_cons, List.length_nil]
          omega
        show ((_ : Nat) : Int) ≤ ((_ : Nat) : Int) + 2
        exact_mod_cast hnat

/-- Witness of C24: the sample optical photon at an optical boundary; its step is defined by
the transportation that is the first of its two along-step processes, and 4 codes go into an
array of size 4. -/
theorem StepProcesses_count_within_size_witness :
    ∃ result, StepProcesses sampleStepServices sampleOpticalManager = some result
      ∧ result.size
        = (sampleOpticalStep.GetTrack.GetDefinition.GetProcessManager.GetAlongStepProcessVector.length
            : G4int) + 2
      ∧ result.count = (result.processes.length : G4int)
      ∧ result.count ≤ result.size :=
  StepProcesses_count_within_size sampleStepServices sampleOpticalManager sampleOpticalStep
    sampleTransportation rfl rfl (by decide) rfl (fun _ => by decide)

/-- C25 (evaluation at the failing regime): with status `kGflashSpot`, a track and a spot set and
no step (as in the sample Gflash-spot state), `IsTrackOut()` does not return: it goes on to the
step, which is missing (exception of `CheckStep` with `MCDEBUG`, null pointer read without).
With status `kVertex` it returns false without touching the step, and with a step set it reads
the post-step point of that step. -/
theorem IsTrackOut_reads_step_at_gflash_spot (env : Services) (sm : TG4StepManager)
    (track : G4Track) (spot : G4GFlashSpot) (step : G4Step) (status : TG4StepStatus) :
    IsTrackOut sampleServices sampleSpotManager = none
    ∧ IsTrackOut { sampleServices with MCDEBUG := true } sampleSpotManager = none
    ∧ IsTrackOut env
        { sm with fStepStatus := TG4StepStatus.kGflashSpot, fTrack := some track,
                  fGflashSpot := some spot, fStep := none } = none
    ∧ IsTrackOut env { sm with fStepStatus := TG4StepStatus.kVertex, fStep := none } = some false
    ∧ IsTrackOut env { sm with fStepStatus := status, fStep := some step }
      = some (decide (status ≠ TG4StepStatus.kVertex
          ∧ step.GetPostStepPoint.GetStepStatus = G4StepStatus.fWorldBoundary)) := by
  refine ⟨by decide, by decide, ?_, ?_, ?_⟩
  · cases h : env.MCDEBUG <;> simp [IsTrackOut, ifMCDEBUG, CheckStep, h]
  · simp [IsTrackOut]
  · by_cases hvertex : status = TG4StepStatus.kVertex
    · simp [IsTrackOut, hvertex]
    · by_cases hworld : step.GetPostStepPoint.GetStepStatus = G4StepStatus.fWorldBoundary
      · cases h : env.MCDEBUG <;>
          simp [IsTrackOut, ifMCDEBUG, CheckStep, h, hvertex, hworld]
      · cases h : env.MCDEBUG <;>
          simp [IsTrackOut, ifMCDEBUG, CheckStep, h, hvertex, hworld]

/-- C27: with status `kVertex`, `kBoundary` or `kGflashSpot`, `StepProcesses` sets the array to
one entry, assigns `kPNull` to it and returns 1, whatever the track, the step, the stepping
manager and the services are. -/
theorem StepProcesses_null_outside_normal_step (env : Services) (sm : TG4StepManager) :
    StepProcesses env { sm with fStepStatus := TG4StepStatus.kVertex }
      = some { size := 1, processes := [TMCProcess.kPNull], count := 1 }
    ∧ StepProcesses env { sm with fStepStatus := TG4StepStatus.kBoundary }
      = some { size := 1, processes := [TMCProcess.kPNull], count := 1 }
    ∧ StepProcesses env { sm with fStepStatus := TG4StepStatus.kGflashSpot }
      = some { size := 1, processes := [TMCProcess.kPNull], count := 1 } := by
  refine ⟨?_, ?_, ?_⟩ <;> simp [StepProcesses]

/-- C28: in every state that has a step when the status is `kNormalStep`, the three functions
return, and exactly one of `IsTrackInside()`, `IsTrackEntering()` and `IsTrackExiting()` is
true: entering exactly when the status is not `kNormalStep`, exiting exactly when the status is
`kNormalStep` and the post-step point is at a geometry boundary, inside otherwise. -/
theorem IsTrack_inside_entering_exiting (env : Services) (sm : TG4StepManager)
    (hstep : sm.fStepStatus = TG4StepStatus.kNormalStep → sm.fStep.isSome = true) :
    ∃ inside exiting,
      IsTrackInside env sm = some inside
      ∧ IsTrackExiting env sm = some exiting
      ∧ (IsTrackEntering sm = true ↔ sm.fStepStatus ≠ TG4StepStatus.kNormalStep)
      ∧ (exiting = true ↔ sm.fStepStatus = TG4StepStatus.kNormalStep
          ∧ ∃ step, sm.fStep = some step
            ∧ step.GetPostStepPoint.GetStepStatus = G4StepStatus.fGeomBoundary)
      ∧ (inside = true ↔ IsTrackEntering sm = false ∧ exiting = false)
      ∧ inside.toNat + (IsTrackEntering sm).toNat + exiting.toNat = 1 := by
  by_cases hnormal : sm.fStepStatus = TG4StepStatus.kNormalStep
  · have hsome := hstep hnormal
    cases hs : sm.fStep with
    | none => simp [hs] at hsome
    | some step =>
      have hcheck : ifMCDEBUG env (CheckStep sm) = some () := by
        cases h : env.MCDEBUG <;> simp [ifMCDEBUG, CheckStep, h, hs]
      by_cases hgeom : step.GetPostStepPoint.GetStepStatus = G4StepStatus.fGeomBoundary
      · refine ⟨false, true, ?_, ?_, ?_, ?_, ?_, ?_⟩
        · simp [IsTrackInside, IsTrackExiting, hnormal, hcheck, hs, hgeom]
        · simp [IsTrackExiting, hnormal, hcheck, hs, hgeom]
        · simp [IsTrackEntering, hnormal]
        · simp [hnormal, hgeom]
        · simp
        · simp [IsTrackEntering, hnormal]
      · refine ⟨true, false, ?_, ?_, ?_, ?_, ?_, ?_⟩
        · simp [IsTrackInside, IsTrackExiting, hnormal, hcheck, hs, hgeom]
        · simp [IsTrackExiting, hnormal, hcheck, hs, hgeom]
        · simp [IsTrackEntering, hnormal]
        · simp [hnormal, hgeom]
        · simp [IsTrackEntering, hnormal]
        · simp [IsTrackEntering, hnormal]
  · refine ⟨false, false, ?_, ?_, ?_, ?_, ?_, ?_⟩
    · simp [IsTrackInside, hnormal]
    · simp [IsTrackExiting, hnormal]
    · simp [IsTrackEntering, hnormal]
    · simp [hnormal]
    · simp [IsTrackEntering, hnormal]
    · simp [IsTrackEntering, hnormal]

/-- Witness of C28: the sample Gflash-spot state, which has no step, is entering only. -/
theorem IsTrack_inside_entering_exiting_witness :
    ∃ inside exiting,
      IsTrackInside sampleServices sampleSpotManager = some inside
      ∧ IsTrackExiting sampleServices sampleSpotManager = some exiting
      ∧ (IsTrackEntering sampleSpotManager = true
          ↔ sampleSpotManager.fStepStatus ≠ TG4StepStatus.kNormalStep)
      ∧ (exiting = true ↔ sampleSpotManager.fStepStatus = TG4StepStatus.kNormalStep
          ∧ ∃ step, sampleSpotManager.fStep = some step
            ∧ step.GetPostStepPoint.GetStepStatus = G4StepStatus.fGeomBoundary)
      ∧ (inside = true ↔ IsTrackEntering sampleSpotManager = false ∧ exiting = false)
      ∧ inside.toNat + (IsTrackEntering sampleSpotManager).toNat + exiting.toNat = 1 :=
  IsTrack_inside_entering_exiting sampleServices sampleSpotManager (by decide)

/-- C29: for each of the six track statuses the three functions return; `IsTrackAlive()` is
true exactly for `fAlive` and `fStopButAlive`, `IsTrackStop()` exactly for the four other
statuses, so exactly one of the two is true; and `IsTrackDisappeared()` is true only where
`IsTrackStop()` is. -/
theorem IsTrackAlive_xor_IsTrackStop (env : Services) (sm : TG4StepManager) (track : G4Track)
    (status : G4TrackStatus) :
    ∃ alive stop disappeared,
      IsTrackAlive env { sm with fTrack := some { track with GetTrackStatus := status } }
        = some alive
      ∧ IsTrackStop env { sm with fTrack := some { track with GetTrackStatus := status } }
        = some stop
      ∧ IsTrackDisappeared env { sm with fTrack := some { track with GetTrackStatus := status } }
        = some disappeared
      ∧ alive = decide (status = G4TrackStatus.fAlive ∨ status = G4TrackStatus.fStopButAlive)
      ∧ stop = decide (status = G4TrackStatus.fStopAndKill
          ∨ status = G4TrackStatus.fKillTrackAndSecondaries
          ∨ status = G4TrackStatus.fSuspend ∨ status = G4TrackStatus.fPostponeToNextEvent)
      ∧ alive = !stop
      ∧ (!disappeared || stop) = true := by
  cases status <;> cases h : env.MCDEBUG <;>
    simp [IsTrackAlive, IsTrackStop, IsTrackDisappeared, ifMCDEBUG, CheckTrack, h]

/-! ## Energy deposit -/

/-- C26: `Edep()` is the total energy deposit of the step divided by the energy unit with status
`kNormalStep`; the energy of the spot divided by the energy unit with status `kGflashSpot`; the
total energy of the track divided by the energy unit with status `kBoundary` when the track
status is `fStopAndKill`, the current process is classified `kPLightScattering` and the
optical-boundary status is `kPLightDetection`; and 0 otherwise: always with status `kVertex`,
and with status `kBoundary` when the track status is another one, when there is no current
process, or when the classification or the optical-boundary status is another one. -/
theorem Edep_by_status (env : Services) (sm : TG4StepManager) (step : G4Step) (track : G4Track)
    (spot : G4GFlashSpot) (energySpot : GFlashEnergySpot) (steppingManager : G4SteppingManager)
    (proc : G4VProcess) :
    Edep env { sm with fStepStatus := TG4StepStatus.kNormalStep, fStep := some step }
      = some (step.GetTotalEnergyDeposit / env.Units.Energy)
    ∧ Edep env
        { sm with fStepStatus := TG4StepStatus.kGflashSpot,
                  fGflashSpot := some { spot with GetEnergySpot := some energySpot } }
      = some (energySpot.GetEnergy / env.Units.Energy)
    ∧ Edep env { sm with fStepStatus := TG4StepStatus.kVertex } = some 0
    ∧ ((env.GetMCProcess (some proc) = TMCProcess.kPLightScattering
          ∧ env.GetOpBoundaryStatus = TMCProcess.kPLightDetection) →
        Edep env
          { sm with fStepStatus := TG4StepStatus.kBoundary,
                    fTrack := some { track with GetTrackStatus := G4TrackStatus.fStopAndKill },
                    fSteppingManager :=
                      some { steppingManager with GetfCurrentProcess := some proc } }
        = some (track.GetDynamicParticle.GetTotalEnergy / env.Units.Energy))
    ∧ (¬ (env.GetMCProcess (some proc) = TMCProcess.kPLightScattering
          ∧ env.GetOpBoundaryStatus = TMCProcess.kPLightDetection) →
        Edep env
          { sm with fStepStatus := TG4StepStatus.kBoundary,
                    fTrack := some { track with GetTrackStatus := G4TrackStatus.fStopAndKill },
                    fSteppingManager :=
                      some { steppingManager with GetfCurrentProcess := some proc } }
        = some 0)
    ∧ Edep env
        { sm with fStepStatus := TG4StepStatus.kBoundary,
                  fTrack := some { track with GetTrackStatus := G4TrackStatus.fStopAndKill },
                  fSteppingManager := some { steppingManager with GetfCurrentProcess := none } }
      = some 0
    ∧ (track.GetTrackStatus ≠ G4TrackStatus.fStopAndKill →
        Edep env { sm with fStepStatus := TG4StepStatus.kBoundary, fTrack := some track }
        = some 0) := by
  refine ⟨?_, ?_, ?_, ?_, ?_, ?_, ?_⟩
  · cases h : env.MCDEBUG <;> simp [Edep, ifMCDEBUG, CheckStep, h]
  · cases h : env.MCDEBUG <;> simp [Edep, ifMCDEBUG, CheckGflashSpot, h]
  · simp [Edep]
  · intro hdetect
    simp [Edep, hdetect.1, hdetect.2, G4Track.GetTotalEnergy]
  · intro hother
    simp only [Edep]
    simp [hother]
  · simp [Edep]
  · intro hstatus
    simp [Edep, hstatus]

/-- Witness of C26: at a boundary, a killed optical photon detected at the optical boundary
deposits its total energy; a killed track whose current process is an absorption deposits 0; a
track that is alive deposits 0. -/
theorem Edep_by_status_witness :
    Edep { sampleStepServices with
           GetMCProcess := fun _ => TMCProcess.kPLightScattering,
           GetOpBoundaryStatus := TMCProcess.kPLightDetection }
        { sampleSecondariesManager with
          fStepStatus := TG4StepStatus.kBoundary,
          fTrack := some { sampleSecondary1 with GetTrackStatus := G4TrackStatus.fStopAndKill },
          fSteppingManager :=
            some { sampleSteppingManager with GetfCurrentProcess := some sampleTransportation } }
      = some (sampleSecondary1.GetDynamicParticle.GetTotalEnergy
          / sampleStepServices.Units.Energy)
    ∧ Edep sampleStepServices
        { sampleSecondariesManager with
          fStepStatus := TG4StepStatus.kBoundary,
          fTrack := some { sampleSecondary1 with GetTrackStatus := G4TrackStatus.fStopAndKill },
          fSteppingManager :=
            some { sampleSteppingManager with GetfCurrentProcess := some sampleOpAbsorption } }
      = some 0
    ∧ Edep sampleStepServices
        { sampleSecondariesManager with
          fStepStatus := TG4StepStatus.kBoundary,
          fTrack := some sampleSecondary1 }
      = some 0 :=
  ⟨(Edep_by_status
      { sampleStepServices with
        GetMCProcess := fun _ => TMCProcess.kPLightScattering,
        GetOpBoundaryStatus := TMCProcess.kPLightDetection }
      sampleSecondariesManager {} sampleSecondary1 {} {} sampleSteppingManager
      sampleTransportation).2.2.2.1 ⟨rfl, rfl⟩,
    (Edep_by_status sampleStepServices sampleSecondariesManager {} sampleSecondary1 {} {}
      sampleSteppingManager sampleOpAbsorption).2.2.2.2.1 (by decide),
    (Edep_by_status sampleStepServices sampleSecondariesManager {} sampleSecondary1 {} {}
      sampleSteppingManager sampleOpAbsorption).2.2.2.2.2.2 (by decide)⟩

/-! ## Particles checker -/

/-- Counterexample to C30 as stated: for the lifetime of a stable particle, -1 in Geant4 and 0
in Root, the two values are not equal within the precision `1e-6`, and `CheckProperty` returns
true. -/
theorem CheckProperty_lifetime_counterexample :
    TG4ParticlesChecker.CheckProperty {} {} TG4ParticlesChecker.ParticleProperty.kLifetime
        sampleStableG4 sampleStableRoot = true
    ∧ ¬ (|TG4ParticlesChecker.GetPropertyValue {} TG4ParticlesChecker.ParticleProperty.kLifetime
            sampleStableG4
          - TG4ParticlesChecker.GetPropertyValueRoot
              TG4ParticlesChecker.ParticleProperty.kLifetime sampleStableRoot|
        ≤ ({} : TG4ParticlesChecker).fPrecision
          * |TG4ParticlesChecker.GetPropertyValue {}
              TG4ParticlesChecker.ParticleProperty.kLifetime sampleStableG4|) := by
  constructor
  · norm_num [TG4ParticlesChecker.CheckProperty, TG4ParticlesChecker.IsEqualRel,
      TG4ParticlesChecker.GetPropertyValue, TG4ParticlesChecker.GetPropertyValueRoot,
      sampleStableG4, sampleStableRoot, abs_of_neg, abs_of_pos]
  · norm_num [TG4ParticlesChecker.GetPropertyValue, TG4ParticlesChecker.GetPropertyValueRoot,
      sampleStableG4, sampleStableRoot, abs_of_neg, abs_of_pos]

/-- C30 (amended): `CheckProperty` returns true if and only if the Geant4 and Root values of
the property are equal within the precision, `|g4Value - rtValue| ≤ precision * |g4Value|`, or
the property is the lifetime, the Geant4 value is negative and the Root value is 0; it returns
false otherwise. -/
theorem CheckProperty_iff (checker : TG4ParticlesChecker) (units : SystemOfUnits)
    (property : TG4ParticlesChecker.ParticleProperty) (g4Particle : G4ParticleDefinition)
    (rtParticle : TParticlePDG) :
    (TG4ParticlesChecker.CheckProperty checker units property g4Particle rtParticle = true
      ↔ (|TG4ParticlesChecker.GetPropertyValue units property g4Particle
            - TG4ParticlesChecker.GetPropertyValueRoot property rtParticle|
          ≤ checker.fPrecision * |TG4ParticlesChecker.GetPropertyValue units property g4Particle|
        ∨ (property = TG4ParticlesChecker.ParticleProperty.kLifetime
          ∧ TG4ParticlesChecker.GetPropertyValue units property g4Particle < 0
          ∧ TG4ParticlesChecker.GetPropertyValueRoot property rtParticle = 0)))
    ∧ (TG4ParticlesChecker.CheckProperty checker units property g4Particle rtParticle = false
      ↔ ¬ (|TG4ParticlesChecker.GetPropertyValue units property g4Particle
            - TG4ParticlesChecker.GetPropertyValueRoot property rtParticle|
          ≤ checker.fPrecision * |TG4ParticlesChecker.GetPropertyValue units property g4Particle|
        ∨ (property = TG4ParticlesChecker.ParticleProperty.kLifetime
          ∧ TG4ParticlesChecker.GetPropertyValue units property g4Particle < 0
          ∧ TG4ParticlesChecker.GetPropertyValueRoot property rtParticle = 0))) := by
  have hmain : TG4ParticlesChecker.CheckProperty checker units property g4Particle rtParticle
      = true
      ↔ (|TG4ParticlesChecker.GetPropertyValue units property g4Particle
            - TG4ParticlesChecker.GetPropertyValueRoot property rtParticle|
          ≤ checker.fPrecision * |TG4ParticlesChecker.GetPropertyValue units property g4Particle|
        ∨ (property = TG4ParticlesChecker.ParticleProperty.kLifetime
          ∧ TG4ParticlesChecker.GetPropertyValue units property g4Particle < 0
          ∧ TG4ParticlesChecker.GetPropertyValueRoot property rtParticle = 0)) := by
    unfold TG4ParticlesChecker.CheckProperty TG4ParticlesChecker.IsEqualRel
    simp only [Bool.and_eq_true, Bool.not_eq_true', decide_eq_false_iff_not, decide_eq_true_eq,
      ite_eq_right_iff, Bool.false_eq_true, imp_false, not_and, Bool.decide_and,
      Bool.and_eq_false_imp]
    tauto
  refine ⟨hmain, ?_⟩
  rw [← hmain]
  cases TG4ParticlesChecker.CheckProperty checker units property g4Particle rtParticle <;> simp

end G4VMC
